import Mathlib

/-!
# nbench benchmark engine (`src/tools/nbench/benchmark.cpp`)

A shallow embedding of the randomized input generator (`random_init` and the
`init_*_tensor` templates) and of the two runners (`run_benchmark`,
`run_benchmark_double_buffered`), followed by the properties proved about them.

Conventions of the embedding:
* `size_t` values are natural numbers reduced modulo `2 ^ 64` where the source
  does arithmetic on them; `int` arguments are integers converted to `size_t`
  the way the usual arithmetic conversions do.
* The backend is an external collaborator.  Every call the runners make on it is
  recorded, in program order, in a trace of `Op`s.  Where the runner looks at
  an answer of the backend (`get_stale`, `read`) the backend is a state machine
  `Backend σ` over an arbitrary state type.
* The process-wide `s_random_engine` is threaded explicitly as an `Engine`.
* Floating point values are not interpreted: a sample of a real distribution is
  kept symbolically.
-/

namespace NBench

/-! ## Element types -/

/-- Enumerators of `element::Type_t`, exactly the ones the exhaustive switch of
`random_init` lists (the switch is compiled with `-Wswitch-enum` as an error). -/
inductive Type_t
  | undefined | dynamic | boolean | bf16 | f16 | f32 | f64
  | i8 | i16 | i32 | i64 | u8 | u16 | u32 | u64
  deriving DecidableEq, Repr

/-- Modelled from the spec: `element::Type::size()`, the fixed byte width of an element
type (`element_type.hpp` is not among the sources).  The widths of `undefined` and
`dynamic` are never used by the runners, `random_init` throws first; they are given as 0. -/
def Type_t.size : Type_t → Nat
  | .undefined => 0
  | .dynamic => 0
  | .boolean => 1
  | .bf16 => 2
  | .f16 => 2
  | .f32 => 4
  | .f64 => 8
  | .i8 => 1
  | .i16 => 2
  | .i32 => 4
  | .i64 => 8
  | .u8 => 1
  | .u16 => 2
  | .u32 => 4
  | .u64 => 8

/-- The C storage types the generator templates are instantiated with. -/
inductive CType
  | char | float | double
  | int8_t | int16_t | int32_t | int64_t
  | uint8_t | uint16_t | uint32_t | uint64_t
  deriving DecidableEq, Repr

/-- The value of `sizeof(T)`. -/
def CType.sizeof : CType → Nat
  | .char => 1
  | .float => 4
  | .double => 8
  | .int8_t => 1
  | .int16_t => 2
  | .int32_t => 4
  | .int64_t => 8
  | .uint8_t => 1
  | .uint16_t => 2
  | .uint32_t => 4
  | .uint64_t => 8

/-- Two's complement wrap of an integer to a signed type of `bits` bits. -/
def wrap_signed (bits : Nat) (v : Int) : Int :=
  (v + 2 ^ (bits - 1)) % 2 ^ bits - 2 ^ (bits - 1)

/-- Wrap of an integer to an unsigned type of `bits` bits. -/
def wrap_unsigned (bits : Nat) (v : Int) : Int :=
  v % 2 ^ bits

/-- The value of `static_cast<T>(v)` for an integer `v` and an integral `T`
(`char` is signed, as on the x86-64 targets the file is written for).  The
floating point targets are not used on integers by the source and leave `v` as it is. -/
def static_cast : CType → Int → Int
  | .char, v => wrap_signed 8 v
  | .int8_t, v => wrap_signed 8 v
  | .int16_t, v => wrap_signed 16 v
  | .int32_t, v => wrap_signed 32 v
  | .int64_t, v => wrap_signed 64 v
  | .uint8_t, v => wrap_unsigned 8 v
  | .uint16_t, v => wrap_unsigned 16 v
  | .uint32_t, v => wrap_unsigned 32 v
  | .uint64_t, v => wrap_unsigned 64 v
  | .float, v => v
  | .double, v => v

/-! ## Random engine and distributions -/

/-- One stored tensor element.  An integral element is its numeric value; an element
drawn from `uniform_real_distribution(lo, hi)` is kept as the raw engine sample it was
computed from, its floating point value is not interpreted. -/
inductive Elem
  | int (v : Int)
  | real (lo hi : Int) (raw : Nat)
  deriving DecidableEq, Repr

/-- State of `s_random_engine`: the raw samples it has yet to produce. -/
structure Engine where
  samples : Nat → Nat

/-- One invocation of the engine: the next raw sample and the advanced engine. -/
def Engine.draw (e : Engine) : Nat × Engine :=
  (e.samples 0, ⟨fun k => e.samples (k + 1)⟩)

/-- Sampling `uniform_int_distribution<T>(a, b)`: a value of the closed range `[a, b]`
selected by the raw sample (every value of the range is selected by some sample). -/
def uniform_int_distribution (a b : Int) (e : Engine) : Int × Engine :=
  ((a + ((e.draw.1 : Int) % (b - a + 1))), e.draw.2)

/-- Sampling `uniform_real_distribution<T>(a, b)`: the symbolic sample. -/
def uniform_real_distribution (a b : Int) (e : Engine) : Elem × Engine :=
  (Elem.real a b e.draw.1, e.draw.2)

/-! ## Tensors as seen by the generator -/

/-- A `runtime::HostTensor` (the runners hand `random_init` host tensors): element
type, shape, buffer content and the record of the `write(ptr, n)` calls made on it,
each with the data written and the byte length `n`.  An empty buffer stands for the
freshly allocated one. -/
structure HostTensor where
  element_type : Type_t
  shape : List Nat
  buffer : List Elem
  writes : List (List Elem × Nat)
  deriving DecidableEq, Repr

/-- Result of `make_shared<runtime::HostTensor>(element_type, shape)`. -/
def HostTensor.make (et : Type_t) (shape : List Nat) : HostTensor :=
  ⟨et, shape, [], []⟩

/-- Modelled from the spec: `Tensor::get_element_count()`, the number of elements of the
shape (`tensor.hpp` is not among the sources). -/
def HostTensor.get_element_count (t : HostTensor) : Nat :=
  t.shape.prod

/-- The call `tensor->write(p, n)` with `p` pointing at `data`. -/
def HostTensor.write (t : HostTensor) (data : List Elem) (n : Nat) : HostTensor :=
  { t with buffer := data, writes := t.writes ++ [(data, n)] }

/-- The range-for loop `for (T& element : vec) element = gen(s_random_engine);` over a
vector of `size` elements. -/
def fill_vec (gen : Engine → Elem × Engine) : Nat → Engine → List Elem × Engine
  | 0, e => ([], e)
  | size + 1, e => ((gen e).1 :: (fill_vec gen size (gen e).2).1, (fill_vec gen size (gen e).2).2)

/-- The primary template `init_int_tensor<T>`. -/
def init_int_tensor (T : CType) (tensor : HostTensor) (min max : Int) (e : Engine) :
    HostTensor × Engine :=
  let size := tensor.get_element_count
  let r := fill_vec (fun g => (Elem.int (uniform_int_distribution min max g).1,
    (uniform_int_distribution min max g).2)) size e
  (tensor.write r.1 (r.1.length * T.sizeof), r.2)

/-- The body shared by the three one-byte specialisations: the distribution is over
`int16_t` with the bounds cast to `short`, each sample is cast to `T`. -/
def init_int_tensor_narrow (T : CType) (tensor : HostTensor) (min max : Int) (e : Engine) :
    HostTensor × Engine :=
  let size := tensor.get_element_count
  let lo := static_cast .int16_t min
  let hi := static_cast .int16_t max
  let r := fill_vec (fun g => (Elem.int (static_cast T (uniform_int_distribution lo hi g).1),
    (uniform_int_distribution lo hi g).2)) size e
  (tensor.write r.1 (r.1.length * T.sizeof), r.2)

/-- The specialisation `init_int_tensor<char>`. -/
def init_int_tensor_char (tensor : HostTensor) (min max : Int) (e : Engine) :
    HostTensor × Engine :=
  init_int_tensor_narrow .char tensor min max e

/-- The specialisation `init_int_tensor<int8_t>`. -/
def init_int_tensor_int8_t (tensor : HostTensor) (min max : Int) (e : Engine) :
    HostTensor × Engine :=
  init_int_tensor_narrow .int8_t tensor min max e

/-- The specialisation `init_int_tensor<uint8_t>`. -/
def init_int_tensor_uint8_t (tensor : HostTensor) (min max : Int) (e : Engine) :
    HostTensor × Engine :=
  init_int_tensor_narrow .uint8_t tensor min max e

/-- The template `init_real_tensor<T>`. -/
def init_real_tensor (T : CType) (tensor : HostTensor) (min max : Int) (e : Engine) :
    HostTensor × Engine :=
  let size := tensor.get_element_count
  let r := fill_vec (uniform_real_distribution min max) size e
  (tensor.write r.1 (r.1.length * T.sizeof), r.2)

/-- Outcome of a call that may throw: the exception message if one was thrown, and
the tensor and engine as the call left them. -/
structure InitResult where
  error : Option String
  tensor : HostTensor
  engine : Engine

/-- A normal return of `random_init`. -/
def InitResult.ok (r : HostTensor × Engine) : InitResult :=
  ⟨none, r.1, r.2⟩

/-- The function `random_init`: the switch over the element type. -/
def random_init (tensor : HostTensor) (e : Engine) : InitResult :=
  match tensor.element_type with
  | .boolean => .ok (init_int_tensor_char tensor 0 1 e)
  | .f32 => .ok (init_real_tensor .float tensor (-1) 1 e)
  | .f64 => .ok (init_real_tensor .double tensor (-1) 1 e)
  | .i8 => .ok (init_int_tensor_int8_t tensor (-1) 1 e)
  | .i16 => .ok (init_int_tensor .int16_t tensor (-1) 1 e)
  | .i32 => .ok (init_int_tensor .int32_t tensor 0 1 e)
  | .i64 => .ok (init_int_tensor .int64_t tensor 0 1 e)
  | .u8 => .ok (init_int_tensor_uint8_t tensor 0 1 e)
  | .u16 => .ok (init_int_tensor .uint16_t tensor 0 1 e)
  | .u32 => .ok (init_int_tensor .uint32_t tensor 0 1 e)
  | .u64 => .ok (init_int_tensor .uint64_t tensor 0 1 e)
  | .undefined => ⟨some "unsupported type", tensor, e⟩
  | .dynamic => ⟨some "unsupported type", tensor, e⟩
  | .bf16 => ⟨some "unsupported type", tensor, e⟩
  | .f16 => ⟨some "unsupported type", tensor, e⟩

/-- The element types `random_init` has a generator for. -/
def Type_t.supported (et : Type_t) : Bool :=
  et ∉ [Type_t.undefined, Type_t.dynamic, Type_t.bf16, Type_t.f16]

/-! ## Graph, backend tensors and the trace of backend operations -/

/-- An `op::Parameter` of the graph: element type, shape and the cacheable flag. -/
structure Parameter where
  element_type : Type_t
  shape : List Nat
  cacheable : Bool
  deriving DecidableEq, Repr

/-- An output node of the graph (`f->get_results()`): element type and shape. -/
structure ResultNode where
  element_type : Type_t
  shape : List Nat
  deriving DecidableEq, Repr

/-- The graph `f`, as far as the runners look at it. -/
structure Function where
  parameters : List Parameter
  results : List ResultNode
  deriving DecidableEq, Repr

/-- A tensor object returned by `backend->create_tensor`.  Every call returns a new
object; the object is named after the slot it is pushed into: `arg set index` is the
tensor created for parameter `index` in the pass that fills buffer set `set`,
`result set index` the one created for result `index`.  The single-buffer runner has
one pass, numbered 0. -/
inductive Tensor
  | arg (set index : Nat)
  | result (set index : Nat)
  deriving DecidableEq, Repr

/-- The operations a runner performs on its collaborators (backend, compiled function,
backend tensors, stopwatches, standard output), in the order it performs them. -/
inductive Op
  | timer_start
  | backend_create (backend_name : String)
  | compile (timing_detail : Bool)
  | timer_stop
  | print_compile_time
  | set_denormals_flush_to_zero
  | create_tensor (t : Tensor) (et : Type_t) (shape : List Nat)
  | write (t : Tensor) (data : List Elem) (n : Nat)
  | read (t : Tensor) (n : Nat)
  | get_stale (t : Tensor) (answer : Bool)
  | set_stale (t : Tensor) (b : Bool)
  | call (results args : List Tensor)
  | begin_write (t : Tensor) (data : List Elem) (n : Nat) (buffer_number : Nat)
  | begin_read (t : Tensor) (n : Nat) (buffer_number : Nat)
  | begin_execute (results args : List Tensor)
  | future_get
  | t1_start
  | t1_stop
  | print_ms_per_iteration (iterations : Nat)
  | get_performance_data
  deriving DecidableEq, Repr

/-- The backend as a state machine over an arbitrary state `σ`: the effect of each
synchronous call of the single-buffer runner, and the answers of `read` and `get_stale`. -/
structure Backend (σ : Type) where
  create_tensor : Tensor → Type_t → List Nat → σ → σ
  write : Tensor → List Elem → Nat → σ → σ
  read : Tensor → Nat → σ → List Elem × σ
  get_stale : Tensor → σ → Bool
  set_stale : Tensor → Bool → σ → σ
  call : List Tensor → List Tensor → σ → σ

/-- Conversion of an `int` to `size_t` (the usual arithmetic conversion applied to
`warmup_iterations` in `iterations + warmup_iterations` and `i == warmup_iterations`). -/
def size_t_of_int (w : Int) : Nat :=
  (w % 2 ^ 64).toNat

/-- The loop bound `iterations + warmup_iterations`, computed in `size_t`. -/
def loop_bound (iterations : Nat) (warmup_iterations : Int) : Nat :=
  (iterations + size_t_of_int warmup_iterations) % 2 ^ 64

/-- The byte length `data->get_element_count() * data->get_element_type().size()`. -/
def HostTensor.byte_size (data : HostTensor) : Nat :=
  data.get_element_count * data.element_type.size

/-! ## The single-buffer runner `run_benchmark` -/

/-- State after the parameter loop: the exception thrown by `random_init` if any, the
operations performed, backend and engine, and the three vectors the loop fills. -/
structure ArgsState (σ : Type) where
  error : Option String
  ops : List Op
  backend : σ
  engine : Engine
  args : List Tensor
  arg_data : List HostTensor
  args_cacheable : List Bool

/-- The loop over `f->get_parameters()` of `run_benchmark`, from parameter `index` on. -/
def make_args {σ : Type} (B : Backend σ) :
    List Parameter → Nat → σ → Engine → ArgsState σ
  | [], _, s, e => ⟨none, [], s, e, [], [], []⟩
  | param :: rest, index, s, e =>
    let tensor := Tensor.arg 0 index
    let s1 := B.create_tensor tensor param.element_type param.shape s
    let r := random_init (HostTensor.make param.element_type param.shape) e
    match r.error with
    | some msg =>
      ⟨some msg, [Op.create_tensor tensor param.element_type param.shape], s1, r.engine,
        [], [], []⟩
    | none =>
      let tensor_data := r.tensor
      let s2 := B.write tensor tensor_data.buffer tensor_data.byte_size s1
      let tl := make_args B rest (index + 1) s2 r.engine
      ⟨tl.error,
        Op.create_tensor tensor param.element_type param.shape ::
          Op.write tensor tensor_data.buffer tensor_data.byte_size :: tl.ops,
        tl.backend, tl.engine, tensor :: tl.args, tensor_data :: tl.arg_data,
        param.cacheable :: tl.args_cacheable⟩

/-- State after the result loop. -/
structure ResultsState (σ : Type) where
  ops : List Op
  backend : σ
  results : List Tensor
  result_data : List HostTensor

/-- The loop over `f->get_results()` of `run_benchmark`, from result `index` on. -/
def make_results {σ : Type} (B : Backend σ) :
    List ResultNode → Nat → σ → ResultsState σ
  | [], _, s => ⟨[], s, [], []⟩
  | out :: rest, index, s =>
    let result := Tensor.result 0 index
    let tl := make_results B rest (index + 1) (B.create_tensor result out.element_type out.shape s)
    ⟨Op.create_tensor result out.element_type out.shape :: tl.ops, tl.backend,
      result :: tl.results, HostTensor.make out.element_type out.shape :: tl.result_data⟩

/-- The loop `if (args_cacheable[i]) args[i]->set_stale(false)`. -/
def clear_stale {σ : Type} (B : Backend σ) : List Tensor → List Bool → σ → List Op × σ
  | arg :: args, c :: cs, s =>
    if c then
      (Op.set_stale arg false :: (clear_stale B args cs (B.set_stale arg false s)).1,
        (clear_stale B args cs (B.set_stale arg false s)).2)
    else clear_stale B args cs s
  | _, _, s => ([], s)

/-- The loop over the arguments inside `if (copy_data)`: every argument whose
`get_stale()` answers true is written from its host tensor. -/
def write_stale_args {σ : Type} (B : Backend σ) :
    List Tensor → List HostTensor → σ → List Op × σ
  | arg :: args, data :: arg_data, s =>
    if B.get_stale arg s then
      (Op.get_stale arg true :: Op.write arg data.buffer data.byte_size ::
          (write_stale_args B args arg_data (B.write arg data.buffer data.byte_size s)).1,
        (write_stale_args B args arg_data (B.write arg data.buffer data.byte_size s)).2)
    else
      (Op.get_stale arg false :: (write_stale_args B args arg_data s).1,
        (write_stale_args B args arg_data s).2)
  | _, _, s => ([], s)

/-- The loop over the results inside `if (copy_data)`: every result tensor is read
into the buffer of its host tensor. -/
def read_results {σ : Type} (B : Backend σ) :
    List Tensor → List HostTensor → σ → List Op × List HostTensor × σ
  | result :: results, data :: result_data, s =>
    let rd := B.read result data.byte_size s
    let tl := read_results B results result_data rd.2
    (Op.read result data.byte_size :: tl.1, { data with buffer := rd.1 } :: tl.2.1, tl.2.2)
  | _, _, s => ([], [], s)

/-- State of the iteration loop: operations performed by the loop so far, backend
state, and the host tensors the results are read into. -/
structure LoopState (σ : Type) where
  ops : List Op
  backend : σ
  result_data : List HostTensor

/-- One pass through the body of the iteration loop of `run_benchmark`, for index `i`. -/
def iteration {σ : Type} (B : Backend σ) (copy_data : Bool) (warmup_iterations : Int)
    (args : List Tensor) (arg_data : List HostTensor) (results : List Tensor)
    (st : LoopState σ) (i : Nat) : LoopState σ :=
  let start := if i = size_t_of_int warmup_iterations then [Op.t1_start] else []
  let w := if copy_data then write_stale_args B args arg_data st.backend else ([], st.backend)
  let s2 := B.call results args w.2
  let r := if copy_data then read_results B results st.result_data s2
    else ([], st.result_data, s2)
  ⟨st.ops ++ (start ++ w.1 ++ [Op.call results args] ++ r.1), r.2.2, r.2.1⟩

/-- The operations of `run_benchmark` up to the report of the compile time. -/
def compile_ops (backend_name : String) (timing_detail : Bool) : List Op :=
  [Op.timer_start, Op.backend_create backend_name, Op.compile timing_detail, Op.timer_stop,
    Op.print_compile_time]

/-- State of `run_benchmark` at the declaration of the stopwatch `t1`: the exception
thrown by `random_init` if any, the operations performed so far, backend and engine, and
the four vectors. -/
structure Setup (σ : Type) where
  error : Option String
  ops : List Op
  backend : σ
  engine : Engine
  args : List Tensor
  arg_data : List HostTensor
  results : List Tensor
  result_data : List HostTensor

/-- The part of `run_benchmark` before the iteration loop: compile, the parameter loop,
`set_denormals_flush_to_zero`, the result loop, and the loop that clears the staleness
flag of the cacheable parameters. -/
def run_benchmark_setup {σ : Type} (B : Backend σ) (f : Function) (backend_name : String)
    (timing_detail : Bool) (s : σ) (e : Engine) : Setup σ :=
  let a := make_args B f.parameters 0 s e
  match a.error with
  | some msg =>
    ⟨some msg, compile_ops backend_name timing_detail ++ a.ops, a.backend, a.engine,
      a.args, a.arg_data, [], []⟩
  | none =>
    let r := make_results B f.results 0 a.backend
    let c := clear_stale B a.args a.args_cacheable r.backend
    ⟨none,
      compile_ops backend_name timing_detail ++ a.ops ++ [Op.set_denormals_flush_to_zero] ++
        r.ops ++ c.1,
      c.2, a.engine, a.args, a.arg_data, r.results, r.result_data⟩

/-- The loop state after the first `k` passes of the iteration loop of `run_benchmark`,
entered with backend state `s` and result host tensors `result_data`. -/
def iterations_done {σ : Type} (B : Backend σ) (copy_data : Bool) (warmup_iterations : Int)
    (args : List Tensor) (arg_data : List HostTensor) (results : List Tensor)
    (result_data : List HostTensor) (s : σ) (k : Nat) : LoopState σ :=
  (List.range k).foldl (iteration B copy_data warmup_iterations args arg_data results)
    ⟨[], s, result_data⟩

/-- What a run of `run_benchmark` leaves behind: the exception if one was thrown, the
trace of operations, backend and engine, and the host tensors. -/
structure Run (σ : Type) where
  error : Option String
  trace : List Op
  backend : σ
  engine : Engine
  arg_data : List HostTensor
  result_data : List HostTensor

/-- The function `run_benchmark`, started with the backend in state `s` and the random
engine in state `e`: the setup, the iteration loop with bound
`iterations + warmup_iterations`, then `t1.stop()`, the report of `time / iterations` and
`get_performance_data`. -/
def run_benchmark {σ : Type} (B : Backend σ) (f : Function) (backend_name : String)
    (iterations : Nat) (timing_detail : Bool) (warmup_iterations : Int) (copy_data : Bool)
    (s : σ) (e : Engine) : Run σ :=
  let u := run_benchmark_setup B f backend_name timing_detail s e
  match u.error with
  | some msg => ⟨some msg, u.ops, u.backend, u.engine, u.arg_data, u.result_data⟩
  | none =>
    let l := iterations_done B copy_data warmup_iterations u.args u.arg_data u.results
      u.result_data u.backend (loop_bound iterations warmup_iterations)
    ⟨none,
      u.ops ++ l.ops ++
        [Op.t1_stop, Op.print_ms_per_iteration iterations, Op.get_performance_data],
      l.backend, u.engine, u.arg_data, l.result_data⟩

/-! ## The pipelined runner `run_benchmark_double_buffered`

The runner never looks at an answer of the backend, so only the trace of the
operations it issues is kept. -/

/-- State after the parameter loop of one pass of the buffer allocation. -/
structure BufferArgs where
  error : Option String
  ops : List Op
  engine : Engine
  args : List Tensor
  args_data : List HostTensor

/-- The loop over `f->get_parameters()` in pass `set` of the buffer allocation of
`run_benchmark_double_buffered`, from parameter `index` on. -/
def make_buffer_args (set : Nat) : List Parameter → Nat → Engine → BufferArgs
  | [], _, e => ⟨none, [], e, [], []⟩
  | param :: rest, index, e =>
    let tensor := Tensor.arg set index
    let r := random_init (HostTensor.make param.element_type param.shape) e
    match r.error with
    | some msg =>
      ⟨some msg, [Op.create_tensor tensor param.element_type param.shape], r.engine, [], []⟩
    | none =>
      let tensor_data := r.tensor
      let tl := make_buffer_args set rest (index + 1) r.engine
      ⟨tl.error,
        Op.create_tensor tensor param.element_type param.shape ::
          Op.write tensor tensor_data.buffer tensor_data.byte_size :: tl.ops,
        tl.engine, tensor :: tl.args, tensor_data :: tl.args_data⟩

/-- The loop over `f->get_results()` in pass `set` of the buffer allocation, from result
`index` on: the operations, the result tensors and their host tensors. -/
def make_buffer_results (set : Nat) :
    List ResultNode → Nat → List Op × List Tensor × List HostTensor
  | [], _ => ([], [], [])
  | out :: rest, index =>
    (Op.create_tensor (Tensor.result set index) out.element_type out.shape ::
        (make_buffer_results set rest (index + 1)).1,
      Tensor.result set index :: (make_buffer_results set rest (index + 1)).2.1,
      HostTensor.make out.element_type out.shape :: (make_buffer_results set rest (index + 1)).2.2)

/-- The four arrays of two vectors filled by the allocation loop `for (i = 0; i < 2; i++)`,
with the exception thrown by `random_init` if any.  An array is the list of its two
vectors. -/
structure BufferSets where
  error : Option String
  ops : List Op
  engine : Engine
  args_data_set : List (List HostTensor)
  args_set : List (List Tensor)
  results_data_set : List (List HostTensor)
  results_set : List (List Tensor)

/-- The allocation loop of `run_benchmark_double_buffered`: pass 0, then pass 1. -/
def make_buffer_sets (f : Function) (e : Engine) : BufferSets :=
  let a0 := make_buffer_args 0 f.parameters 0 e
  match a0.error with
  | some msg => ⟨some msg, a0.ops, a0.engine, [[], []], [[], []], [[], []], [[], []]⟩
  | none =>
    let r0 := make_buffer_results 0 f.results 0
    let a1 := make_buffer_args 1 f.parameters 0 a0.engine
    match a1.error with
    | some msg =>
      ⟨some msg, a0.ops ++ r0.1 ++ a1.ops, a1.engine, [a0.args_data, []], [a0.args, []],
        [r0.2.2, []], [r0.2.1, []]⟩
    | none =>
      let r1 := make_buffer_results 1 f.results 0
      ⟨none, a0.ops ++ r0.1 ++ a1.ops ++ r1.1, a1.engine, [a0.args_data, a1.args_data],
        [a0.args, a1.args], [r0.2.2, r1.2.2], [r0.2.1, r1.2.1]⟩

/-- The loop `arg->begin_write(data ptr, byte size, buffer_number)` over the arguments. -/
def begin_write_all : List Tensor → List HostTensor → Nat → List Op
  | arg :: args, data :: args_data, buffer_number =>
    Op.begin_write arg data.buffer data.byte_size buffer_number ::
      begin_write_all args args_data buffer_number
  | _, _, _ => []

/-- The loop `result->begin_read(data ptr, byte size, tag)` over the results. -/
def begin_read_all : List Tensor → List HostTensor → Nat → List Op
  | result :: results, data :: results_data, tag =>
    Op.begin_read result data.byte_size tag :: begin_read_all results results_data tag
  | _, _, _ => []

/-- The expression `(buffer_number - 1) & 1` on `size_t`. -/
def previous_buffer (buffer_number : Nat) : Nat :=
  ((buffer_number + 2 ^ 64 - 1) % 2 ^ 64) &&& 1

/-- The expression `(buffer_number + 1) & 1` on `size_t`. -/
def next_buffer (buffer_number : Nat) : Nat :=
  ((buffer_number + 1) % 2 ^ 64) &&& 1

/-- The operations of one pass through the body of the iteration loop of
`run_benchmark_double_buffered`, for index `i`, entered with `buffer_number`. -/
def pipelined_iteration_ops (warmup_iterations : Int) (args : List Tensor)
    (args_data : List HostTensor) (results : List Tensor) (results_data : List HostTensor)
    (i : Nat) (buffer_number : Nat) : List Op :=
  (if i = size_t_of_int warmup_iterations then [Op.t1_start] else []) ++
    Op.begin_execute results args ::
      ((if 0 < i then begin_read_all results results_data (previous_buffer buffer_number)
          else []) ++
        begin_write_all args args_data (next_buffer buffer_number)) ++
    [Op.future_get]

/-- State of the iteration loop of the pipelined runner: the operations performed by
the loop so far and the variable `buffer_number`. -/
structure PipelineState where
  ops : List Op
  buffer_number : Nat
  deriving DecidableEq, Repr

/-- One pass through the body of the iteration loop of `run_benchmark_double_buffered`. -/
def pipelined_iteration (warmup_iterations : Int) (args : List Tensor)
    (args_data : List HostTensor) (results : List Tensor) (results_data : List HostTensor)
    (st : PipelineState) (i : Nat) : PipelineState :=
  ⟨st.ops ++ pipelined_iteration_ops warmup_iterations args args_data results results_data i
      st.buffer_number,
    next_buffer st.buffer_number⟩

/-- What a run of `run_benchmark_double_buffered` leaves behind: the exception if one was
thrown, the trace of operations, the engine, and the two arrays of backend tensors. -/
structure PipelinedRun where
  error : Option String
  trace : List Op
  engine : Engine
  args_set : List (List Tensor)
  results_set : List (List Tensor)

/-- The function `run_benchmark_double_buffered`, started with the random engine in
state `e`.  The argument `copy_data` is not used by the source. -/
def run_benchmark_double_buffered (f : Function) (backend_name : String) (iterations : Nat)
    (timing_detail : Bool) (warmup_iterations : Int) (_copy_data : Bool) (e : Engine) :
    PipelinedRun :=
  let b := make_buffer_sets f e
  match b.error with
  | some msg =>
    ⟨some msg,
      compile_ops backend_name timing_detail ++ [Op.set_denormals_flush_to_zero] ++ b.ops,
      b.engine, b.args_set, b.results_set⟩
  | none =>
    let buffer_number := 0
    let args := b.args_set.getD buffer_number []
    let args_data := b.args_data_set.getD buffer_number []
    let results := b.results_set.getD buffer_number []
    let results_data := b.results_data_set.getD buffer_number []
    let l := (List.range (loop_bound iterations warmup_iterations)).foldl
      (pipelined_iteration warmup_iterations args args_data results results_data)
      ⟨[], buffer_number⟩
    ⟨none,
      compile_ops backend_name timing_detail ++ [Op.set_denormals_flush_to_zero] ++ b.ops ++
        begin_write_all args args_data buffer_number ++ l.ops ++
        begin_read_all results results_data (previous_buffer l.buffer_number) ++
        [Op.t1_stop, Op.print_ms_per_iteration iterations, Op.get_performance_data],
      b.engine, b.args_set, b.results_set⟩

/-! ## Observations on traces -/

/-- Whether the operation is a `begin_execute`. -/
def Op.is_begin_execute : Op → Bool
  | .begin_execute _ _ => true
  | _ => false

/-- Whether the operation is a synchronous `call` of the compiled function. -/
def Op.is_call : Op → Bool
  | .call _ _ => true
  | _ => false

/-- The parity tag carried by a `begin_write` or `begin_read`. -/
def Op.parity_tag : Op → Option Nat
  | .begin_write _ _ _ p => some p
  | .begin_read _ _ p => some p
  | _ => none

/-- The tensor a `begin_write` or `begin_read` is issued on. -/
def Op.transfer_tensor : Op → Option Tensor
  | .begin_write t _ _ _ => some t
  | .begin_read t _ _ => some t
  | _ => none

/-- Whether the operation is a synchronous `write` on tensor `t`. -/
def Op.is_write_to (t : Tensor) : Op → Bool
  | .write u _ _ => decide (u = t)
  | _ => false

/-- An engine whose raw samples are all `r`. -/
def Engine.const (r : Nat) : Engine :=
  ⟨fun _ => r⟩

/-- A graph with one `f32` parameter and one `f32` result of shape `[2]`. -/
def identity_graph (cacheable : Bool) : Function :=
  ⟨[⟨Type_t.f32, [2], cacheable⟩], [⟨Type_t.f32, [2]⟩]⟩

/-- Whether the operation belongs to buffer allocation: `create_tensor`, or the
synchronous `write` that seeds a tensor. -/
def Op.is_alloc : Op → Bool
  | .create_tensor _ _ _ => true
  | .write _ _ _ => true
  | _ => false

/-- Whether the operation starts or stops the stopwatch `t1`. -/
def Op.is_t1 : Op → Bool
  | .t1_start => true
  | .t1_stop => true
  | _ => false

/-- Whether the operation is the report of the mean time per iteration. -/
def Op.is_report : Op → Bool
  | .print_ms_per_iteration _ => true
  | _ => false

/-! ## Stopwatch and model clock -/

/-- Modelled from the spec: the `stopwatch` class (`ngraph/util.hpp` is not among the
sources).  `start` records the current time unless the stopwatch is running, `stop` adds
the time since the last start to the total if it is running, `get_milliseconds` is the
total. -/
structure Stopwatch where
  active : Bool
  start_time : Nat
  total : Nat
  deriving DecidableEq, Repr

/-- The call `start()` at time `now`. -/
def Stopwatch.start (sw : Stopwatch) (now : Nat) : Stopwatch :=
  if sw.active then sw else ⟨true, now, sw.total⟩

/-- A model clock in milliseconds together with the stopwatch `t1`. -/
structure Clock where
  now : Nat
  t1 : Stopwatch
  deriving DecidableEq, Repr

/-- The clock at the start of a run: time 0, `t1` freshly constructed. -/
def Clock.init : Clock :=
  ⟨0, ⟨false, 0, 0⟩⟩

/-- Whether the operation is one of the calls the single-buffer runner makes on a tensor
object or to create one: `create_tensor`, `write`, `read`, `get_stale`, `set_stale`. -/
def Op.is_tensor_op : Op → Bool
  | .create_tensor _ _ _ => true
  | .write _ _ _ => true
  | .read _ _ => true
  | .get_stale _ _ => true
  | .set_stale _ _ => true
  | _ => false

/-! ## A backend that stores what is written -/

/-- State of the storing backend: for every tensor the content last stored in it, the
byte length it was stored with, and the staleness flag. -/
structure Store where
  content : Tensor → List Elem
  size : Tensor → Nat
  stale : Tensor → Bool

/-- The storing backend before any tensor exists. -/
def Store.init : Store :=
  ⟨fun _ => [], fun _ => 0, fun _ => true⟩

/-- A per-tensor attribute after an invocation that copies the argument tensors into
the result tensors, position by position. -/
def call_copy {α : Type} (content : Tensor → α) : List Tensor → List Tensor → Tensor → α
  | r :: results, a :: args, t => if t = r then content a else call_copy content results args t
  | _, _, t => content t

/-- The backend model of the round-trip property: a tensor is created empty and stale,
`write(p, n)` stores the data handed to it with its byte length `n`, `read(p, n)`
returns the stored content when `n` is the stored byte length (any other length is
outside the model and returns nothing), the staleness flag changes through `set_stale`
only, and `call` copies every argument tensor into the result tensor of the same
position. -/
def store_backend : Backend Store where
  create_tensor := fun t _ _ s =>
    ⟨fun u => if u = t then [] else s.content u, fun u => if u = t then 0 else s.size u,
      fun u => if u = t then true else s.stale u⟩
  write := fun t data n s =>
    ⟨fun u => if u = t then data else s.content u, fun u => if u = t then n else s.size u,
      s.stale⟩
  read := fun t n s => (if n = s.size t then s.content t else [], s)
  get_stale := fun t s => s.stale t
  set_stale := fun t b s => ⟨s.content, s.size, fun u => if u = t then b else s.stale u⟩
  call := fun results args s =>
    ⟨call_copy s.content results args, call_copy s.size results args, s.stale⟩

/-- The assumption that a tensor's staleness flag changes only through `set_stale`:
`write`, `read` and `call` leave every flag as it is, `create_tensor` leaves the flags of
the other tensors as they are, and `set_stale u b` sets the flag of `u` to `b` and leaves
the others. -/
structure StaleOnlyBySetStale {σ : Type} (B : Backend σ) : Prop where
  write : ∀ t u data n s, B.get_stale t (B.write u data n s) = B.get_stale t s
  read : ∀ t u n s, B.get_stale t (B.read u n s).2 = B.get_stale t s
  call : ∀ t results args s, B.get_stale t (B.call results args s) = B.get_stale t s
  create_tensor : ∀ t u et shape s, t ≠ u →
    B.get_stale t (B.create_tensor u et shape s) = B.get_stale t s
  set_stale : ∀ t u b s,
    B.get_stale t (B.set_stale u b s) = if t = u then b else B.get_stale t s

/-- Whether the operation is a `set_stale`. -/
def Op.is_set_stale : Op → Bool
  | .set_stale _ _ => true
  | _ => false

/-- Whether the operation is the wait `exec_future.get()`. -/
def Op.is_future_get : Op → Bool
  | .future_get => true
  | _ => false

/-- Whether the operation is a `begin_read`. -/
def Op.is_begin_read : Op → Bool
  | .begin_read _ _ _ => true
  | _ => false

/-- Whether the operation is a `begin_write`. -/
def Op.is_begin_write : Op → Bool
  | .begin_write _ _ _ _ => true
  | _ => false

/-- The answers of `get_stale` in one pass of the argument loop of `run_benchmark`
entered with backend state `s`: the flag of each argument as it reads when the loop
reaches it, after the writes made for the arguments before it. -/
def stale_readings {σ : Type} (B : Backend σ) : List Tensor → List HostTensor → σ → List Bool
  | arg :: args, data :: arg_data, s =>
    B.get_stale arg s :: stale_readings B args arg_data
      (if B.get_stale arg s then B.write arg data.buffer data.byte_size s else s)
  | _, _, _ => []

/-- The transfers pass `i` of the iteration loop of the pipelined runner issues between
its `begin_execute` and the wait on its future, with the parity tags written out: the
`begin_read` batch when `i > 0`, then the `begin_write` batch, both tagged
`(i + 1) % 2`. -/
def pipelined_transfers (args : List Tensor) (args_data : List HostTensor)
    (results : List Tensor) (results_data : List HostTensor) (i : Nat) : List Op :=
  (if 0 < i then begin_read_all results results_data ((i + 1) % 2) else []) ++
    begin_write_all args args_data ((i + 1) % 2)

end NBench

namespace NBench

/-! ## The input generator -/

theorem fill_vec_length (gen : Engine → Elem × Engine) (size : Nat) (e : Engine) :
    (fill_vec gen size e).1.length = size := by
  induction size generalizing e with
  | zero => rfl
  | succ n ih => simp [fill_vec, ih]

theorem fill_vec_forall (gen : Engine → Elem × Engine) (P : Elem → Prop)
    (hgen : ∀ g, P (gen g).1) (size : Nat) (e : Engine) :
    ∀ x ∈ (fill_vec gen size e).1, P x := by
  induction size generalizing e with
  | zero => simp [fill_vec]
  | succ n ih =>
    intro x hx
    simp only [fill_vec, List.mem_cons] at hx
    rcases hx with rfl | hx
    · exact hgen e
    · exact ih _ x hx

theorem uniform_int_distribution_range (a b : Int) (hab : a ≤ b) (e : Engine) :
    a ≤ (uniform_int_distribution a b e).1 ∧ (uniform_int_distribution a b e).1 ≤ b := by
  have hpos : (0 : Int) < b - a + 1 := by omega
  have h1 := Int.emod_nonneg (e.draw.1 : Int) (ne_of_gt hpos)
  have h2 := Int.emod_lt_of_pos (e.draw.1 : Int) hpos
  simp only [uniform_int_distribution]
  constructor <;> omega

/-- C7: `random_init` throws "unsupported type" exactly for the element types undefined,
dynamic, bf16 and f16, returns normally exactly for the other eleven, and when it throws
the tensor (buffer and record of writes) and the engine are as they were: no write was
performed. -/
theorem random_init_unsupported_iff (tensor : HostTensor) (e : Engine) :
    ((random_init tensor e).error = some "unsupported type" ↔
      tensor.element_type ∈
        [Type_t.undefined, Type_t.dynamic, Type_t.bf16, Type_t.f16]) ∧
    ((random_init tensor e).error = none ↔
      tensor.element_type ∈
        [Type_t.boolean, Type_t.f32, Type_t.f64, Type_t.i8, Type_t.i16, Type_t.i32,
          Type_t.i64, Type_t.u8, Type_t.u16, Type_t.u32, Type_t.u64]) ∧
    ((random_init tensor e).error ≠ none →
      (random_init tensor e).tensor = tensor ∧
      (random_init tensor e).tensor.writes = tensor.writes ∧
      (random_init tensor e).engine.samples = e.samples) := by
  cases h : tensor.element_type <;> simp [random_init, h, InitResult.ok]

/-- C10: for a supported element type, `random_init` returns normally and performs exactly
one write on the tensor; the data written has as many elements as the tensor and the byte
length is the element count times the byte width of the element type. -/
theorem random_init_one_write (tensor : HostTensor) (e : Engine)
    (hsup : tensor.element_type.supported = true) :
    (random_init tensor e).error = none ∧
    ∃ data : List Elem,
      (random_init tensor e).tensor.writes =
        tensor.writes ++ [(data, tensor.get_element_count * tensor.element_type.size)] ∧
      data.length = tensor.get_element_count ∧
      (random_init tensor e).tensor.buffer = data := by
  cases h : tensor.element_type <;>
    simp [Type_t.supported, h] at hsup <;>
    simp [random_init, h, InitResult.ok, init_int_tensor, init_int_tensor_char,
      init_int_tensor_int8_t, init_int_tensor_uint8_t, init_int_tensor_narrow, init_real_tensor,
      HostTensor.write, fill_vec_length, Type_t.size, CType.sizeof]

/-- Witness of `random_init_one_write`: an `f64` tensor of shape `[3]`. -/
theorem random_init_one_write_witness :
    (random_init (HostTensor.make Type_t.f64 [3]) (Engine.const 5)).error = none ∧
    ∃ data : List Elem,
      (random_init (HostTensor.make Type_t.f64 [3]) (Engine.const 5)).tensor.writes =
        (HostTensor.make Type_t.f64 [3]).writes ++
          [(data, (HostTensor.make Type_t.f64 [3]).get_element_count *
            (HostTensor.make Type_t.f64 [3]).element_type.size)] ∧
      data.length = (HostTensor.make Type_t.f64 [3]).get_element_count ∧
      (random_init (HostTensor.make Type_t.f64 [3]) (Engine.const 5)).tensor.buffer = data :=
  random_init_one_write (HostTensor.make Type_t.f64 [3]) (Engine.const 5) (by decide)

/-- C8 fails for `i16`: on an `i16` tensor of one element, with the engine's next raw
sample 0, the element `random_init` stores is -1, outside `[0, 1]`; the distribution it
is drawn from is the one with bounds -1 and 1. -/
theorem random_init_i16_draws_minus_one :
    (random_init (HostTensor.make Type_t.i16 [1]) (Engine.const 0)).tensor.buffer =
      [Elem.int (-1)] ∧
    (random_init (HostTensor.make Type_t.i16 [1]) (Engine.const 0)).tensor =
      (init_int_tensor CType.int16_t (HostTensor.make Type_t.i16 [1]) (-1) 1
        (Engine.const 0)).1 ∧
    ¬ ∀ x ∈ (random_init (HostTensor.make Type_t.i16 [1]) (Engine.const 0)).tensor.buffer,
      x = Elem.int 0 ∨ x = Elem.int 1 := by
  decide

/-- C8 as amended: for the element types i32, i64, u16, u32 and u64 `random_init` fills the
tensor through `init_int_tensor` with bounds 0 and 1, so every element it writes is 0 or 1;
for i16 the bounds are -1 and 1, so every element is an integer of `[-1, 1]`. -/
theorem random_init_wide_int_range (tensor : HostTensor) (e : Engine)
    (het : tensor.element_type ∈
      [Type_t.i16, Type_t.i32, Type_t.i64, Type_t.u16, Type_t.u32, Type_t.u64]) :
    (∃ T : CType, (random_init tensor e).tensor =
      (init_int_tensor T tensor (if tensor.element_type = Type_t.i16 then -1 else 0) 1 e).1) ∧
    ∀ x ∈ (random_init tensor e).tensor.buffer,
      ∃ v : Int, x = Elem.int v ∧
        (if tensor.element_type = Type_t.i16 then -1 else 0) ≤ v ∧ v ≤ 1 := by
  have key : ∀ (T : CType) (a : Int), a ≤ 1 →
      ∀ x ∈ (init_int_tensor T tensor a 1 e).1.buffer, ∃ v : Int, x = Elem.int v ∧ a ≤ v ∧ v ≤ 1 := by
    intro T a ha x hx
    simp only [init_int_tensor, HostTensor.write] at hx
    exact fill_vec_forall _ (fun x => ∃ v : Int, x = Elem.int v ∧ a ≤ v ∧ v ≤ 1)
      (fun g => ⟨_, rfl, uniform_int_distribution_range a 1 ha g⟩) _ e x hx
  cases h : tensor.element_type <;> simp [h] at het <;>
    simp only [random_init, h, InitResult.ok, if_true, if_false, reduceCtorEq]
  · exact ⟨⟨_, rfl⟩, key _ (-1) (by decide)⟩
  · exact ⟨⟨_, rfl⟩, key _ 0 (by decide)⟩
  · exact ⟨⟨_, rfl⟩, key _ 0 (by decide)⟩
  · exact ⟨⟨_, rfl⟩, key _ 0 (by decide)⟩
  · exact ⟨⟨_, rfl⟩, key _ 0 (by decide)⟩
  · exact ⟨⟨_, rfl⟩, key _ 0 (by decide)⟩

/-- Witness of `random_init_wide_int_range`: a `u32` tensor of shape `[2, 2]`. -/
theorem random_init_wide_int_range_witness :
    (∃ T : CType, (random_init (HostTensor.make Type_t.u32 [2, 2]) (Engine.const 7)).tensor =
      (init_int_tensor T (HostTensor.make Type_t.u32 [2, 2])
        (if (HostTensor.make Type_t.u32 [2, 2]).element_type = Type_t.i16 then -1 else 0) 1
        (Engine.const 7)).1) ∧
    ∀ x ∈ (random_init (HostTensor.make Type_t.u32 [2, 2]) (Engine.const 7)).tensor.buffer,
      ∃ v : Int, x = Elem.int v ∧
        (if (HostTensor.make Type_t.u32 [2, 2]).element_type = Type_t.i16 then -1 else 0) ≤ v ∧
        v ≤ 1 :=
  random_init_wide_int_range (HostTensor.make Type_t.u32 [2, 2]) (Engine.const 7) (by decide)

/-! ## The pipelined runner: shape of the trace -/

theorem next_buffer_mod (i : Nat) : next_buffer (i % 2) = (i + 1) % 2 := by
  unfold next_buffer
  rw [Nat.and_one_is_mod]
  omega

theorem previous_buffer_mod (i : Nat) : previous_buffer (i % 2) = (i + 1) % 2 := by
  unfold previous_buffer
  rw [Nat.and_one_is_mod]
  omega

theorem pipelined_loop (w : Int) (args : List Tensor) (args_data : List HostTensor)
    (results : List Tensor) (results_data : List HostTensor) (k : Nat) :
    (List.range k).foldl (pipelined_iteration w args args_data results results_data) ⟨[], 0⟩ =
      ⟨(List.range k).flatMap
          (fun i => pipelined_iteration_ops w args args_data results results_data i (i % 2)),
        k % 2⟩ := by
  induction k with
  | zero => rfl
  | succ n ih =>
    rw [List.range_succ, List.foldl_append, ih]
    simp [pipelined_iteration, List.flatMap_append, next_buffer_mod]

theorem flatMap_range_split {α : Type} (g : Nat → List α) (n i : Nat) (hi : i < n) :
    (List.range n).flatMap g =
      (List.range i).flatMap g ++ (g i ++
        (List.range (n - i - 1)).flatMap (fun j => g (i + 1 + j))) := by
  obtain ⟨m, rfl⟩ : ∃ m, n = i + 1 + m := ⟨n - i - 1, by omega⟩
  have hm : i + 1 + m - i - 1 = m := by omega
  rw [hm, List.range_add, List.range_succ]
  simp [List.flatMap_append, List.flatMap_map]

theorem begin_write_all_tag (args : List Tensor) (args_data : List HostTensor) (b : Nat) :
    ∀ op ∈ begin_write_all args args_data b,
      op.parity_tag = some b ∧ op.transfer_tensor ≠ none ∧ op.is_begin_execute = false ∧
        op ≠ Op.future_get ∧ op.is_alloc = false ∧ op ≠ Op.t1_start := by
  induction args generalizing args_data with
  | nil => simp [begin_write_all]
  | cons a rest ih =>
    cases args_data with
    | nil => simp [begin_write_all]
    | cons d ds =>
      intro op hop
      simp only [begin_write_all, List.mem_cons] at hop
      rcases hop with rfl | hop
      · simp [Op.parity_tag, Op.transfer_tensor, Op.is_begin_execute, Op.is_alloc]
      · exact ih ds op hop

theorem begin_read_all_tag (results : List Tensor) (results_data : List HostTensor) (b : Nat) :
    ∀ op ∈ begin_read_all results results_data b,
      op.parity_tag = some b ∧ op.transfer_tensor ≠ none ∧ op.is_begin_execute = false ∧
        op ≠ Op.future_get ∧ op.is_alloc = false ∧ op ≠ Op.t1_start := by
  induction results generalizing results_data with
  | nil => simp [begin_read_all]
  | cons a rest ih =>
    cases results_data with
    | nil => simp [begin_read_all]
    | cons d ds =>
      intro op hop
      simp only [begin_read_all, List.mem_cons] at hop
      rcases hop with rfl | hop
      · simp [Op.parity_tag, Op.transfer_tensor, Op.is_begin_execute, Op.is_alloc]
      · exact ih ds op hop

theorem make_buffer_args_alloc (set : Nat) (ps : List Parameter) (index : Nat) (e : Engine) :
    ∀ op ∈ (make_buffer_args set ps index e).ops, op.is_alloc = true := by
  induction ps generalizing index e with
  | nil => simp [make_buffer_args]
  | cons p rest ih =>
    intro op hop
    simp only [make_buffer_args] at hop
    split at hop
    · simp only [List.mem_singleton] at hop
      subst hop
      rfl
    · simp only [List.mem_cons] at hop
      rcases hop with rfl | rfl | hop
      · rfl
      · rfl
      · exact ih _ _ op hop

theorem make_buffer_results_alloc (set : Nat) (rs : List ResultNode) (index : Nat) :
    ∀ op ∈ (make_buffer_results set rs index).1, op.is_alloc = true := by
  induction rs generalizing index with
  | nil => simp [make_buffer_results]
  | cons r rest ih =>
    intro op hop
    simp only [make_buffer_results, List.mem_cons] at hop
    rcases hop with rfl | hop
    · rfl
    · exact ih _ op hop

theorem make_buffer_sets_alloc (f : Function) (e : Engine) :
    ∀ op ∈ (make_buffer_sets f e).ops, op.is_alloc = true := by
  intro op hop
  simp only [make_buffer_sets] at hop
  split at hop
  · exact make_buffer_args_alloc _ _ _ _ op hop
  · split at hop
    · simp only [List.mem_append] at hop
      rcases hop with (hop | hop) | hop
      · exact make_buffer_args_alloc _ _ _ _ op hop
      · exact make_buffer_results_alloc _ _ _ op hop
      · exact make_buffer_args_alloc _ _ _ _ op hop
    · simp only [List.mem_append] at hop
      rcases hop with ((hop | hop) | hop) | hop
      · exact make_buffer_args_alloc _ _ _ _ op hop
      · exact make_buffer_results_alloc _ _ _ op hop
      · exact make_buffer_args_alloc _ _ _ _ op hop
      · exact make_buffer_results_alloc _ _ _ op hop

theorem pipelined_error (f : Function) (backend_name : String) (iterations : Nat)
    (timing_detail : Bool) (w : Int) (copy_data : Bool) (e : Engine) :
    (run_benchmark_double_buffered f backend_name iterations timing_detail w copy_data e).error =
      (make_buffer_sets f e).error := by
  unfold run_benchmark_double_buffered
  cases h : (make_buffer_sets f e).error <;> simp [h]

theorem pipelined_trace (f : Function) (backend_name : String) (iterations : Nat)
    (timing_detail : Bool) (w : Int) (copy_data : Bool) (e : Engine)
    (herr : (make_buffer_sets f e).error = none) :
    (run_benchmark_double_buffered f backend_name iterations timing_detail w copy_data e).trace =
      compile_ops backend_name timing_detail ++ [Op.set_denormals_flush_to_zero] ++
        (make_buffer_sets f e).ops ++
        begin_write_all ((make_buffer_sets f e).args_set.getD 0 [])
          ((make_buffer_sets f e).args_data_set.getD 0 []) 0 ++
        (List.range (loop_bound iterations w)).flatMap
          (fun i => pipelined_iteration_ops w ((make_buffer_sets f e).args_set.getD 0 [])
            ((make_buffer_sets f e).args_data_set.getD 0 [])
            ((make_buffer_sets f e).results_set.getD 0 [])
            ((make_buffer_sets f e).results_data_set.getD 0 []) i (i % 2)) ++
        begin_read_all ((make_buffer_sets f e).results_set.getD 0 [])
          ((make_buffer_sets f e).results_data_set.getD 0 [])
          ((loop_bound iterations w + 1) % 2) ++
        [Op.t1_stop, Op.print_ms_per_iteration iterations, Op.get_performance_data] := by
  unfold run_benchmark_double_buffered
  simp only [herr, pipelined_loop, previous_buffer_mod]

theorem pipelined_iteration_ops_count (w : Int) (args : List Tensor)
    (args_data : List HostTensor) (results : List Tensor) (results_data : List HostTensor)
    (i b : Nat) :
    (pipelined_iteration_ops w args args_data results results_data i b).countP
      Op.is_begin_execute = 1 := by
  have hw : (begin_write_all args args_data (next_buffer b)).countP Op.is_begin_execute = 0 :=
    List.countP_eq_zero.2 (fun op hop => by simp [(begin_write_all_tag _ _ _ op hop).2.2.1])
  have hr : (begin_read_all results results_data (previous_buffer b)).countP
      Op.is_begin_execute = 0 :=
    List.countP_eq_zero.2 (fun op hop => by simp [(begin_read_all_tag _ _ _ op hop).2.2.1])
  have hs : (if i = size_t_of_int w then [Op.t1_start] else []).countP
      Op.is_begin_execute = 0 := by
    split <;> rfl
  have hr2 : (if 0 < i then begin_read_all results results_data (previous_buffer b)
      else []).countP Op.is_begin_execute = 0 := by
    split
    · exact hr
    · rfl
  unfold pipelined_iteration_ops
  simp only [List.countP_append, List.countP_cons, hw, hs, hr2]
  rfl

theorem pipelined_prefix_count (w : Int) (args : List Tensor)
    (args_data : List HostTensor) (results : List Tensor) (results_data : List HostTensor)
    (i : Nat) :
    ((List.range i).flatMap (fun j =>
      pipelined_iteration_ops w args args_data results results_data j (j % 2))).countP
        Op.is_begin_execute = i := by
  induction i with
  | zero => rfl
  | succ n ih =>
    rw [List.range_succ, List.flatMap_append, List.countP_append, ih]
    simp [pipelined_iteration_ops_count]

theorem alloc_count_begin_execute (l : List Op) (h : ∀ op ∈ l, op.is_alloc = true) :
    l.countP Op.is_begin_execute = 0 := by
  refine List.countP_eq_zero.2 (fun op hop => ?_)
  have := h op hop
  cases op <;> simp_all [Op.is_alloc, Op.is_begin_execute]

/-- C1: in a run of `run_benchmark_double_buffered` that reaches the loop, for every loop
index `i` below the loop bound the trace splits at the `begin_execute` of iteration `i`
(the one preceded by exactly `i` others) and at the next `future_get`, the wait on its
future; every `begin_write` and `begin_read` issued in between carries a parity tag
different from `i % 2`. -/
theorem pipelined_tags_differ_from_pending (f : Function) (backend_name : String)
    (iterations : Nat) (timing_detail : Bool) (warmup_iterations : Int) (copy_data : Bool)
    (e : Engine) (i : Nat)
    (herr : (run_benchmark_double_buffered f backend_name iterations timing_detail
      warmup_iterations copy_data e).error = none)
    (hi : i < loop_bound iterations warmup_iterations) :
    ∃ (pre : List Op) (results args : List Tensor) (mid post : List Op),
      (run_benchmark_double_buffered f backend_name iterations timing_detail
        warmup_iterations copy_data e).trace =
          pre ++ Op.begin_execute results args :: (mid ++ Op.future_get :: post) ∧
      pre.countP Op.is_begin_execute = i ∧
      Op.future_get ∉ mid ∧
      ∀ op ∈ mid, ∀ p : Nat, op.parity_tag = some p → p ≠ i % 2 := by
  rw [pipelined_error] at herr
  rw [pipelined_trace f backend_name iterations timing_detail warmup_iterations copy_data e herr,
    flatMap_range_split _ _ i hi]
  generalize (make_buffer_sets f e).args_set.getD 0 [] = A
  generalize (make_buffer_sets f e).args_data_set.getD 0 [] = AD
  generalize (make_buffer_sets f e).results_set.getD 0 [] = R
  generalize (make_buffer_sets f e).results_data_set.getD 0 [] = RD
  refine ⟨compile_ops backend_name timing_detail ++ [Op.set_denormals_flush_to_zero] ++
      (make_buffer_sets f e).ops ++ begin_write_all A AD 0 ++
      (List.range i).flatMap (fun j => pipelined_iteration_ops warmup_iterations A AD R RD j
        (j % 2)) ++
      (if i = size_t_of_int warmup_iterations then [Op.t1_start] else []),
    R, A,
    (if 0 < i then begin_read_all R RD (previous_buffer (i % 2)) else []) ++
      begin_write_all A AD (next_buffer (i % 2)),
    (List.range (loop_bound iterations warmup_iterations - i - 1)).flatMap
        (fun j => pipelined_iteration_ops warmup_iterations A AD R RD (i + 1 + j)
          ((i + 1 + j) % 2)) ++
      begin_read_all R RD ((loop_bound iterations warmup_iterations + 1) % 2) ++
      [Op.t1_stop, Op.print_ms_per_iteration iterations, Op.get_performance_data],
    ?_, ?_, ?_, ?_⟩
  · simp [pipelined_iteration_ops, List.append_assoc]
  · have h0 : (begin_write_all A AD 0).countP Op.is_begin_execute = 0 :=
      List.countP_eq_zero.2 (fun op hop => by simp [(begin_write_all_tag _ _ _ op hop).2.2.1])
    simp only [List.countP_append, pipelined_prefix_count,
      alloc_count_begin_execute _ (make_buffer_sets_alloc f e), h0]
    have hs : (if i = size_t_of_int warmup_iterations then [Op.t1_start] else []).countP
        Op.is_begin_execute = 0 := by
      split <;> rfl
    have hc : (compile_ops backend_name timing_detail).countP Op.is_begin_execute = 0 := rfl
    have hd : [Op.set_denormals_flush_to_zero].countP Op.is_begin_execute = 0 := rfl
    rw [hs, hc, hd]
    omega
  · intro hmem
    rcases List.mem_append.1 hmem with h | h
    · by_cases h2 : 0 < i
      · rw [if_pos h2] at h
        exact (begin_read_all_tag _ _ _ _ h).2.2.2.1 rfl
      · rw [if_neg h2] at h
        simp at h
    · exact (begin_write_all_tag _ _ _ _ h).2.2.2.1 rfl
  · intro op hop p hp
    have hne : (i + 1) % 2 ≠ i % 2 := by omega
    rcases List.mem_append.1 hop with h | h
    · by_cases h2 : 0 < i
      · rw [if_pos h2] at h
        have := (begin_read_all_tag _ _ _ _ h).1
        rw [previous_buffer_mod] at this
        rw [this] at hp
        cases hp
        exact hne
      · rw [if_neg h2] at h
        simp at h
    · have := (begin_write_all_tag _ _ _ _ h).1
      rw [next_buffer_mod] at this
      rw [this] at hp
      cases hp
      exact hne

/-- Witness of `pipelined_tags_differ_from_pending`: the one-parameter graph, two
measured iterations after one warm-up iteration, loop index 1. -/
theorem pipelined_tags_differ_from_pending_witness :
    (run_benchmark_double_buffered (identity_graph false) "CPU" 2 false 1 true
      (Engine.const 0)).error = none ∧
    1 < loop_bound 2 1 ∧
    ∃ (pre : List Op) (results args : List Tensor) (mid post : List Op),
      (run_benchmark_double_buffered (identity_graph false) "CPU" 2 false 1 true
        (Engine.const 0)).trace =
          pre ++ Op.begin_execute results args :: (mid ++ Op.future_get :: post) ∧
      pre.countP Op.is_begin_execute = 1 ∧
      Op.future_get ∉ mid ∧
      ∀ op ∈ mid, ∀ p : Nat, op.parity_tag = some p → p ≠ 1 % 2 :=
  ⟨by decide, by decide,
    pipelined_tags_differ_from_pending (identity_graph false) "CPU" 2 false 1 true
      (Engine.const 0) 1 (by decide) (by decide)⟩

/-- C2: on the one-parameter graph with two iterations and no warm-up the pipelined
runner allocates two different buffer sets, yet both `begin_execute` calls, the one of
iteration 0 and the one of iteration 1, are issued on the tensors of set 0: iteration 1
does not execute on `args_set[1]` and `results_set[1]`. -/
theorem pipelined_execute_ignores_parity :
    (run_benchmark_double_buffered (identity_graph false) "CPU" 2 false 0 true
      (Engine.const 0)).error = none ∧
    (run_benchmark_double_buffered (identity_graph false) "CPU" 2 false 0 true
      (Engine.const 0)).args_set = [[Tensor.arg 0 0], [Tensor.arg 1 0]] ∧
    (run_benchmark_double_buffered (identity_graph false) "CPU" 2 false 0 true
      (Engine.const 0)).results_set = [[Tensor.result 0 0], [Tensor.result 1 0]] ∧
    (run_benchmark_double_buffered (identity_graph false) "CPU" 2 false 0 true
      (Engine.const 0)).trace.filter Op.is_begin_execute =
        [Op.begin_execute [Tensor.result 0 0] [Tensor.arg 0 0],
          Op.begin_execute [Tensor.result 0 0] [Tensor.arg 0 0]] := by
  decide

/-- C3: on the one-parameter graph with two iterations and no warm-up, the operations of
iteration 1 of the pipelined runner are a `begin_execute` on the result tensor and the
argument tensor of set 0, then, before the wait on its future, a `begin_read` on that
same result tensor and a `begin_write` on that same argument tensor. -/
theorem pipelined_transfer_hits_pending_buffers :
    (run_benchmark_double_buffered (identity_graph false) "CPU" 2 false 0 true
      (Engine.const 0)).error = none ∧
    ((run_benchmark_double_buffered (identity_graph false) "CPU" 2 false 0 true
      (Engine.const 0)).trace.drop 17).take 4 =
        [Op.begin_execute [Tensor.result 0 0] [Tensor.arg 0 0],
          Op.begin_read (Tensor.result 0 0) 8 0,
          Op.begin_write (Tensor.arg 0 0) [Elem.real (-1) 1 0, Elem.real (-1) 1 0] 8 0,
          Op.future_get] ∧
    ((run_benchmark_double_buffered (identity_graph false) "CPU" 2 false 0 true
      (Engine.const 0)).trace.take 17).countP Op.is_begin_execute = 1 := by
  decide

/-! ## The single-buffer runner: shape of the trace -/

theorem make_args_tensor_ops {σ : Type} (B : Backend σ) (ps : List Parameter) (index : Nat)
    (s : σ) (e : Engine) :
    ∀ op ∈ (make_args B ps index s e).ops, op.is_tensor_op = true := by
  induction ps generalizing index s e with
  | nil => simp [make_args]
  | cons p rest ih =>
    intro op hop
    simp only [make_args] at hop
    split at hop
    · simp only [List.mem_singleton] at hop
      subst hop
      rfl
    · simp only [List.mem_cons] at hop
      rcases hop with rfl | rfl | hop
      · rfl
      · rfl
      · exact ih _ _ _ op hop

theorem make_results_tensor_ops {σ : Type} (B : Backend σ) (rs : List ResultNode)
    (index : Nat) (s : σ) :
    ∀ op ∈ (make_results B rs index s).ops, op.is_tensor_op = true := by
  induction rs generalizing index s with
  | nil => simp [make_results]
  | cons r rest ih =>
    intro op hop
    simp only [make_results, List.mem_cons] at hop
    rcases hop with rfl | hop
    · rfl
    · exact ih _ _ op hop

theorem clear_stale_tensor_ops {σ : Type} (B : Backend σ) (args : List Tensor)
    (cs : List Bool) (s : σ) :
    ∀ op ∈ (clear_stale B args cs s).1, op.is_tensor_op = true := by
  induction args generalizing cs s with
  | nil => simp [clear_stale]
  | cons a rest ih =>
    cases cs with
    | nil => simp [clear_stale]
    | cons c cs =>
      intro op hop
      simp only [clear_stale] at hop
      split at hop
      · simp only [List.mem_cons] at hop
        rcases hop with rfl | hop
        · rfl
        · exact ih _ _ op hop
      · exact ih _ _ op hop

theorem write_stale_args_tensor_ops {σ : Type} (B : Backend σ) (args : List Tensor)
    (arg_data : List HostTensor) (s : σ) :
    ∀ op ∈ (write_stale_args B args arg_data s).1, op.is_tensor_op = true := by
  induction args generalizing arg_data s with
  | nil => simp [write_stale_args]
  | cons a rest ih =>
    cases arg_data with
    | nil => simp [write_stale_args]
    | cons d ds =>
      intro op hop
      simp only [write_stale_args] at hop
      split at hop
      · simp only [List.mem_cons] at hop
        rcases hop with rfl | rfl | hop
        · rfl
        · rfl
        · exact ih _ _ op hop
      · simp only [List.mem_cons] at hop
        rcases hop with rfl | hop
        · rfl
        · exact ih _ _ op hop

theorem read_results_tensor_ops {σ : Type} (B : Backend σ) (results : List Tensor)
    (result_data : List HostTensor) (s : σ) :
    ∀ op ∈ (read_results B results result_data s).1, op.is_tensor_op = true := by
  induction results generalizing result_data s with
  | nil => simp [read_results]
  | cons a rest ih =>
    cases result_data with
    | nil => simp [read_results]
    | cons d ds =>
      intro op hop
      simp only [read_results, List.mem_cons] at hop
      rcases hop with rfl | hop
      · rfl
      · exact ih _ _ op hop

theorem tensor_op_plain (op : Op) (h : op.is_tensor_op = true) :
    op.is_call = false ∧ op.is_t1 = false ∧ op.is_report = false := by
  cases op <;> simp_all [Op.is_tensor_op, Op.is_call, Op.is_t1, Op.is_report]

theorem tensor_ops_count_call (l : List Op) (h : ∀ op ∈ l, op.is_tensor_op = true) :
    l.countP Op.is_call = 0 :=
  List.countP_eq_zero.2 (fun op hop => by simp [(tensor_op_plain op (h op hop)).1])

theorem iteration_ops {σ : Type} (B : Backend σ) (cd : Bool) (w : Int) (args : List Tensor)
    (arg_data : List HostTensor) (results : List Tensor) (st : LoopState σ) (i : Nat) :
    ∃ body : List Op,
      (iteration B cd w args arg_data results st i).ops =
        st.ops ++ ((if i = size_t_of_int w then [Op.t1_start] else []) ++ body) ∧
      body.countP Op.is_call = 1 ∧
      ∀ op ∈ body, op.is_t1 = false ∧ op.is_report = false := by
  refine ⟨(if cd then write_stale_args B args arg_data st.backend else ([], st.backend)).1 ++
    [Op.call results args] ++
    (if cd then read_results B results st.result_data
        (B.call results args
          (if cd then write_stale_args B args arg_data st.backend else ([], st.backend)).2)
      else ([], st.result_data,
        B.call results args
          (if cd then write_stale_args B args arg_data st.backend
            else ([], st.backend)).2)).1, ?_, ?_, ?_⟩
  · simp [iteration, List.append_assoc]
  · cases cd
    · rfl
    · simp only [if_true, List.countP_append,
        tensor_ops_count_call _ (write_stale_args_tensor_ops B _ _ _),
        tensor_ops_count_call _ (read_results_tensor_ops B _ _ _)]
      rfl
  · intro op hop
    cases cd
    · simp at hop
      subst hop
      exact ⟨rfl, rfl⟩
    · simp only [if_true, List.mem_append, List.mem_singleton] at hop
      rcases hop with (hop | rfl) | hop
      · exact (tensor_op_plain op (write_stale_args_tensor_ops B _ _ _ op hop)).2
      · exact ⟨rfl, rfl⟩
      · exact (tensor_op_plain op (read_results_tensor_ops B _ _ _ op hop)).2

theorem iterations_done_succ {σ : Type} (B : Backend σ) (cd : Bool) (w : Int)
    (args : List Tensor) (arg_data : List HostTensor) (results : List Tensor)
    (result_data : List HostTensor) (s : σ) (k : Nat) :
    iterations_done B cd w args arg_data results result_data s (k + 1) =
      iteration B cd w args arg_data results
        (iterations_done B cd w args arg_data results result_data s k) k := by
  simp [iterations_done, List.range_succ, List.foldl_append]

theorem loop_before_start {σ : Type} (B : Backend σ) (cd : Bool) (w : Int)
    (args : List Tensor) (arg_data : List HostTensor) (results : List Tensor)
    (result_data : List HostTensor) (s : σ) (k : Nat) (hk : k ≤ size_t_of_int w) :
    (∀ op ∈ (iterations_done B cd w args arg_data results result_data s k).ops,
      op.is_t1 = false ∧ op.is_report = false) ∧
    (iterations_done B cd w args arg_data results result_data s k).ops.countP Op.is_call = k := by
  induction k with
  | zero => simp [iterations_done]
  | succ n ih =>
    obtain ⟨ih1, ih2⟩ := ih (by omega)
    obtain ⟨body, hb, hc, hp⟩ := iteration_ops B cd w args arg_data results
      (iterations_done B cd w args arg_data results result_data s n) n
    have hne : n ≠ size_t_of_int w := by omega
    rw [iterations_done_succ, hb, if_neg hne]
    constructor
    · intro op hop
      simp only [List.nil_append, List.mem_append] at hop
      rcases hop with hop | hop
      · exact ih1 op hop
      · exact hp op hop
    · simp [List.countP_append, ih2, hc]

theorem run_benchmark_setup_ops {σ : Type} (B : Backend σ) (f : Function)
    (backend_name : String) (timing_detail : Bool) (s : σ) (e : Engine) :
    (∀ op ∈ (run_benchmark_setup B f backend_name timing_detail s e).ops,
      op.is_t1 = false ∧ op.is_report = false) ∧
    (run_benchmark_setup B f backend_name timing_detail s e).ops.countP Op.is_call = 0 ∧
    Op.compile timing_detail ∈ (run_benchmark_setup B f backend_name timing_detail s e).ops := by
  have hc : ∀ op ∈ compile_ops backend_name timing_detail,
      op.is_call = false ∧ op.is_t1 = false ∧ op.is_report = false := by
    intro op hop
    simp only [compile_ops, List.mem_cons, List.mem_singleton, List.not_mem_nil, or_false] at hop
    rcases hop with rfl | rfl | rfl | rfl | rfl <;> exact ⟨rfl, rfl, rfl⟩
  have hmem : Op.compile timing_detail ∈ compile_ops backend_name timing_detail := by
    simp [compile_ops]
  have hall : ∀ op ∈ (run_benchmark_setup B f backend_name timing_detail s e).ops,
      op.is_call = false ∧ op.is_t1 = false ∧ op.is_report = false := by
    intro op hop
    simp only [run_benchmark_setup] at hop
    split at hop
    · rcases List.mem_append.1 hop with hop | hop
      · exact hc op hop
      · exact tensor_op_plain op (make_args_tensor_ops B _ _ _ _ op hop)
    · simp only [List.mem_append, List.mem_singleton] at hop
      rcases hop with (((hop | hop) | rfl) | hop) | hop
      · exact hc op hop
      · exact tensor_op_plain op (make_args_tensor_ops B _ _ _ _ op hop)
      · exact ⟨rfl, rfl, rfl⟩
      · exact tensor_op_plain op (make_results_tensor_ops B _ _ _ op hop)
      · exact tensor_op_plain op (clear_stale_tensor_ops B _ _ _ op hop)
  refine ⟨fun op hop => (hall op hop).2, ?_, ?_⟩
  · exact List.countP_eq_zero.2 (fun op hop => by simp [(hall op hop).1])
  · simp only [run_benchmark_setup]
    split
    · exact List.mem_append_left _ hmem
    · simp only [List.append_assoc]
      exact List.mem_append_left _ hmem

theorem run_benchmark_error {σ : Type} (B : Backend σ) (f : Function) (backend_name : String)
    (iterations : Nat) (timing_detail : Bool) (w : Int) (cd : Bool) (s : σ) (e : Engine) :
    (run_benchmark B f backend_name iterations timing_detail w cd s e).error =
      (run_benchmark_setup B f backend_name timing_detail s e).error := by
  unfold run_benchmark
  cases h : (run_benchmark_setup B f backend_name timing_detail s e).error <;> simp [h]

theorem run_benchmark_trace {σ : Type} (B : Backend σ) (f : Function) (backend_name : String)
    (iterations : Nat) (timing_detail : Bool) (w : Int) (cd : Bool) (s : σ) (e : Engine)
    (herr : (run_benchmark_setup B f backend_name timing_detail s e).error = none) :
    (run_benchmark B f backend_name iterations timing_detail w cd s e).trace =
      (run_benchmark_setup B f backend_name timing_detail s e).ops ++
        (iterations_done B cd w (run_benchmark_setup B f backend_name timing_detail s e).args
          (run_benchmark_setup B f backend_name timing_detail s e).arg_data
          (run_benchmark_setup B f backend_name timing_detail s e).results
          (run_benchmark_setup B f backend_name timing_detail s e).result_data
          (run_benchmark_setup B f backend_name timing_detail s e).backend
          (loop_bound iterations w)).ops ++
        [Op.t1_stop, Op.print_ms_per_iteration iterations, Op.get_performance_data] := by
  unfold run_benchmark
  simp only [herr]

theorem size_t_of_int_nonneg (w : Int) (h0 : 0 ≤ w) (h1 : w < 2 ^ 64) :
    size_t_of_int w = w.toNat := by
  unfold size_t_of_int
  rw [Int.emod_eq_of_lt h0 h1]

theorem loop_bound_no_overflow (iterations : Nat) (w : Int) (h0 : 0 ≤ w)
    (h1 : (iterations : Int) + w < 2 ^ 64) :
    loop_bound iterations w = iterations + w.toNat := by
  unfold loop_bound
  rw [size_t_of_int_nonneg w h0 (by omega)]
  apply Nat.mod_eq_of_lt
  omega

/-! ## Zero iterations -/

theorem random_init_supported (tensor : HostTensor) (e : Engine)
    (hsup : tensor.element_type.supported = true) : (random_init tensor e).error = none := by
  cases h : tensor.element_type <;>
    simp [Type_t.supported, h] at hsup <;>
    simp [random_init, h, InitResult.ok]

theorem make_args_supported {σ : Type} (B : Backend σ) (ps : List Parameter) (index : Nat)
    (s : σ) (e : Engine) (hsup : ∀ p ∈ ps, p.element_type.supported = true) :
    (make_args B ps index s e).error = none := by
  induction ps generalizing index s e with
  | nil => rfl
  | cons p rest ih =>
    have hp : (random_init (HostTensor.make p.element_type p.shape) e).error = none :=
      random_init_supported _ e (hsup p (List.mem_cons_self _ _))
    simp only [make_args, hp]
    exact ih _ _ _ (fun q hq => hsup q (List.mem_cons_of_mem _ hq))

theorem make_buffer_args_supported (set : Nat) (ps : List Parameter) (index : Nat)
    (e : Engine) (hsup : ∀ p ∈ ps, p.element_type.supported = true) :
    (make_buffer_args set ps index e).error = none := by
  induction ps generalizing index e with
  | nil => rfl
  | cons p rest ih =>
    have hp : (random_init (HostTensor.make p.element_type p.shape) e).error = none :=
      random_init_supported _ e (hsup p (List.mem_cons_self _ _))
    simp only [make_buffer_args, hp]
    exact ih _ _ (fun q hq => hsup q (List.mem_cons_of_mem _ hq))

theorem run_benchmark_setup_supported {σ : Type} (B : Backend σ) (f : Function)
    (backend_name : String) (timing_detail : Bool) (s : σ) (e : Engine)
    (hsup : ∀ p ∈ f.parameters, p.element_type.supported = true) :
    (run_benchmark_setup B f backend_name timing_detail s e).error = none := by
  simp only [run_benchmark_setup, make_args_supported B f.parameters 0 s e hsup]

theorem make_buffer_sets_supported (f : Function) (e : Engine)
    (hsup : ∀ p ∈ f.parameters, p.element_type.supported = true) :
    (make_buffer_sets f e).error = none := by
  simp only [make_buffer_sets, make_buffer_args_supported _ f.parameters 0 _ hsup]

theorem pipelined_iteration_ops_no_start (w : Int) (args : List Tensor)
    (args_data : List HostTensor) (results : List Tensor) (results_data : List HostTensor)
    (i b : Nat) (hi : i ≠ size_t_of_int w) :
    Op.t1_start ∉ pipelined_iteration_ops w args args_data results results_data i b := by
  intro hmem
  simp only [pipelined_iteration_ops, if_neg hi, List.nil_append, List.mem_append,
    List.mem_cons, List.mem_singleton, List.not_mem_nil, or_false, reduceCtorEq,
    false_or] at hmem
  rcases hmem with (hmem | hmem)
  · by_cases h2 : 0 < i
    · rw [if_pos h2] at hmem
      exact (begin_read_all_tag _ _ _ _ hmem).2.2.2.2.2 rfl
    · rw [if_neg h2] at hmem
      simp at hmem
  · exact (begin_write_all_tag _ _ _ _ hmem).2.2.2.2.2 rfl

/-- C5 fails: with `iterations = 0` and two warm-up iterations on the one-parameter
graph, neither runner raises an error; `run_benchmark` invokes the compiled function
twice and `run_benchmark_double_buffered` issues two `begin_execute`, and both reach the
report, which divides by `iterations = 0`. -/
theorem zero_iterations_accepted :
    (run_benchmark store_backend (identity_graph false) "CPU" 0 false 2 true Store.init
      (Engine.const 0)).error = none ∧
    (run_benchmark store_backend (identity_graph false) "CPU" 0 false 2 true Store.init
      (Engine.const 0)).trace.countP Op.is_call = 2 ∧
    Op.print_ms_per_iteration 0 ∈
      (run_benchmark store_backend (identity_graph false) "CPU" 0 false 2 true Store.init
        (Engine.const 0)).trace ∧
    (run_benchmark_double_buffered (identity_graph false) "CPU" 0 false 2 true
      (Engine.const 0)).error = none ∧
    (run_benchmark_double_buffered (identity_graph false) "CPU" 0 false 2 true
      (Engine.const 0)).trace.countP Op.is_begin_execute = 2 ∧
    Op.print_ms_per_iteration 0 ∈
      (run_benchmark_double_buffered (identity_graph false) "CPU" 0 false 2 true
        (Engine.const 0)).trace := by
  decide

/-- C5 as amended: called with `iterations = 0`, `0 <= warmup_iterations < 2 ^ 64` and
parameters of supported element types, neither runner raises an error: the loop runs
`warmup_iterations` times, invoking the compiled function that many times (`call` in
`run_benchmark`, `begin_execute` in `run_benchmark_double_buffered`), `t1` is never
started, and the run ends with `t1_stop`, the report with divisor 0 and
`get_performance_data`. -/
theorem zero_iterations_runs_warmup {σ : Type} (B : Backend σ) (f : Function)
    (backend_name : String) (timing_detail : Bool) (warmup_iterations : Int)
    (copy_data : Bool) (s : σ) (e : Engine)
    (hsup : ∀ p ∈ f.parameters, p.element_type.supported = true)
    (hw : 0 ≤ warmup_iterations) (hw2 : warmup_iterations < 2 ^ 64) :
    ((run_benchmark B f backend_name 0 timing_detail warmup_iterations copy_data s e).error =
        none ∧
      (run_benchmark B f backend_name 0 timing_detail warmup_iterations
        copy_data s e).trace.countP Op.is_call = warmup_iterations.toNat ∧
      Op.t1_start ∉
        (run_benchmark B f backend_name 0 timing_detail warmup_iterations copy_data s e).trace ∧
      ∃ body : List Op,
        (run_benchmark B f backend_name 0 timing_detail warmup_iterations copy_data s e).trace =
          body ++ [Op.t1_stop, Op.print_ms_per_iteration 0, Op.get_performance_data]) ∧
    ((run_benchmark_double_buffered f backend_name 0 timing_detail warmup_iterations
        copy_data e).error = none ∧
      (run_benchmark_double_buffered f backend_name 0 timing_detail warmup_iterations
        copy_data e).trace.countP Op.is_begin_execute = warmup_iterations.toNat ∧
      Op.t1_start ∉
        (run_benchmark_double_buffered f backend_name 0 timing_detail warmup_iterations
          copy_data e).trace ∧
      ∃ body : List Op,
        (run_benchmark_double_buffered f backend_name 0 timing_detail warmup_iterations
          copy_data e).trace =
          body ++ [Op.t1_stop, Op.print_ms_per_iteration 0, Op.get_performance_data]) := by
  have hw3 : size_t_of_int warmup_iterations = warmup_iterations.toNat :=
    size_t_of_int_nonneg _ hw hw2
  have hlb : loop_bound 0 warmup_iterations = size_t_of_int warmup_iterations := by
    rw [loop_bound_no_overflow 0 warmup_iterations hw (by simpa using hw2), hw3]
    omega
  constructor
  · have herr := run_benchmark_setup_supported B f backend_name timing_detail s e hsup
    obtain ⟨hs1, hs2, -⟩ := run_benchmark_setup_ops B f backend_name timing_detail s e
    rw [run_benchmark_error, run_benchmark_trace B f backend_name 0 timing_detail
      warmup_iterations copy_data s e herr, hlb]
    obtain ⟨hb1, hb2⟩ := loop_before_start B copy_data warmup_iterations
      (run_benchmark_setup B f backend_name timing_detail s e).args
      (run_benchmark_setup B f backend_name timing_detail s e).arg_data
      (run_benchmark_setup B f backend_name timing_detail s e).results
      (run_benchmark_setup B f backend_name timing_detail s e).result_data
      (run_benchmark_setup B f backend_name timing_detail s e).backend
      (size_t_of_int warmup_iterations) (le_refl _)
    refine ⟨herr, ?_, ?_, ⟨_, rfl⟩⟩
    · rw [List.countP_append, List.countP_append, hs2, hb2, hw3]
      simp [Op.is_call]
    · intro hmem
      simp only [List.mem_append, List.mem_cons, List.mem_singleton, List.not_mem_nil,
        or_false, reduceCtorEq] at hmem
      rcases hmem with hmem | hmem
      · have := (hs1 _ hmem).1
        simp [Op.is_t1] at this
      · have := (hb1 _ hmem).1
        simp [Op.is_t1] at this
  · have herr := make_buffer_sets_supported f e hsup
    rw [pipelined_error, pipelined_trace f backend_name 0 timing_detail warmup_iterations
      copy_data e herr, hlb]
    refine ⟨herr, ?_, ?_, ⟨_, rfl⟩⟩
    · have h0 : ∀ A AD b, (begin_write_all A AD b).countP Op.is_begin_execute = 0 :=
        fun A AD b => List.countP_eq_zero.2
          (fun op hop => by simp [(begin_write_all_tag _ _ _ op hop).2.2.1])
      have h1 : ∀ R RD b, (begin_read_all R RD b).countP Op.is_begin_execute = 0 :=
        fun R RD b => List.countP_eq_zero.2
          (fun op hop => by simp [(begin_read_all_tag _ _ _ op hop).2.2.1])
      have hc : (compile_ops backend_name timing_detail).countP Op.is_begin_execute = 0 := rfl
      simp only [List.countP_append, pipelined_prefix_count,
        alloc_count_begin_execute _ (make_buffer_sets_alloc f e), h0, h1, hc, hw3]
      simp [Op.is_begin_execute]
    · intro hmem
      simp only [List.mem_append, List.mem_cons, List.mem_singleton, List.not_mem_nil,
        or_false, reduceCtorEq, List.mem_flatMap, List.mem_range] at hmem
      rcases hmem with (((hmem | hmem) | hmem) | ⟨i, hi, hmem⟩) | hmem
      · simp [compile_ops] at hmem
      · have := make_buffer_sets_alloc f e _ hmem
        simp [Op.is_alloc] at this
      · exact (begin_write_all_tag _ _ _ _ hmem).2.2.2.2.2 rfl
      · exact pipelined_iteration_ops_no_start _ _ _ _ _ i _ (by omega) hmem
      · exact (begin_read_all_tag _ _ _ _ hmem).2.2.2.2.2 rfl

/-- Witness of `zero_iterations_runs_warmup`: the one-parameter graph on the storing
backend with two warm-up iterations. -/
theorem zero_iterations_runs_warmup_witness :
    (∀ p ∈ (identity_graph false).parameters, p.element_type.supported = true) ∧
    (0 : Int) ≤ 2 ∧ (2 : Int) < 2 ^ 64 ∧
    ((run_benchmark store_backend (identity_graph false) "CPU" 0 false 2 true Store.init
        (Engine.const 0)).error = none ∧
      (run_benchmark store_backend (identity_graph false) "CPU" 0 false 2 true Store.init
        (Engine.const 0)).trace.countP Op.is_call = (2 : Int).toNat ∧
      Op.t1_start ∉
        (run_benchmark store_backend (identity_graph false) "CPU" 0 false 2 true Store.init
          (Engine.const 0)).trace ∧
      ∃ body : List Op,
        (run_benchmark store_backend (identity_graph false) "CPU" 0 false 2 true Store.init
          (Engine.const 0)).trace =
          body ++ [Op.t1_stop, Op.print_ms_per_iteration 0, Op.get_performance_data]) ∧
    ((run_benchmark_double_buffered (identity_graph false) "CPU" 0 false 2 true
        (Engine.const 0)).error = none ∧
      (run_benchmark_double_buffered (identity_graph false) "CPU" 0 false 2 true
        (Engine.const 0)).trace.countP Op.is_begin_execute = (2 : Int).toNat ∧
      Op.t1_start ∉
        (run_benchmark_double_buffered (identity_graph false) "CPU" 0 false 2 true
          (Engine.const 0)).trace ∧
      ∃ body : List Op,
        (run_benchmark_double_buffered (identity_graph false) "CPU" 0 false 2 true
          (Engine.const 0)).trace =
          body ++ [Op.t1_stop, Op.print_ms_per_iteration 0, Op.get_performance_data]) :=
  ⟨by decide, by decide, by decide,
    zero_iterations_runs_warmup store_backend (identity_graph false) "CPU" false 2 true
      Store.init (Engine.const 0) (by decide) (by decide) (by decide)⟩

/-! ## Cacheable parameters -/

theorem make_args_write_count {σ : Type} (B : Backend σ) (ps : List Parameter) (index : Nat)
    (s : σ) (e : Engine) (j : Nat) :
    (make_args B ps index s e).ops.countP (Op.is_write_to (Tensor.arg 0 j)) ≤ 1 ∧
    (j < index →
      (make_args B ps index s e).ops.countP (Op.is_write_to (Tensor.arg 0 j)) = 0) ∧
    ((make_args B ps index s e).error = none → index ≤ j → j < index + ps.length →
      (make_args B ps index s e).ops.countP (Op.is_write_to (Tensor.arg 0 j)) = 1) := by
  induction ps generalizing index s e with
  | nil =>
    refine ⟨by simp [make_args], fun _ => by simp [make_args], fun _ h1 h2 => ?_⟩
    simp at h2
    omega
  | cons p rest ih =>
    cases hr : (random_init (HostTensor.make p.element_type p.shape) e).error with
    | some msg =>
      simp [make_args, hr, List.countP_cons, Op.is_write_to]
    | none =>
      obtain ⟨ih1, ih2, ih3⟩ := ih (index + 1)
        (B.write (Tensor.arg 0 index)
          (random_init (HostTensor.make p.element_type p.shape) e).tensor.buffer
          (random_init (HostTensor.make p.element_type p.shape) e).tensor.byte_size
          (B.create_tensor (Tensor.arg 0 index) p.element_type p.shape s))
        (random_init (HostTensor.make p.element_type p.shape) e).engine
      simp only [make_args, hr, List.countP_cons, Op.is_write_to, List.length_cons]
      by_cases hj : index = j
      · subst hj
        have h0 := ih2 (by omega)
        simp [h0]
      · have hne : ¬ (Tensor.arg 0 index = Tensor.arg 0 j) := by
          intro h
          injection h with _ h2
          exact hj h2
        simp only [hne, decide_False, Bool.false_eq_true, if_false, Nat.add_zero]
        refine ⟨by simpa using ih1, fun h => by simpa using ih2 (by omega), fun h1 h2 h3 => ?_⟩
        simpa using ih3 h1 (by omega) (by omega)

theorem make_args_slots {σ : Type} (B : Backend σ) (ps : List Parameter) (index : Nat)
    (s : σ) (e : Engine) (k : Nat) (p : Parameter)
    (herr : (make_args B ps index s e).error = none) (hp : ps[k]? = some p) :
    (make_args B ps index s e).args[k]? = some (Tensor.arg 0 (index + k)) ∧
    (make_args B ps index s e).args_cacheable[k]? = some p.cacheable := by
  induction ps generalizing index s e k with
  | nil => simp at hp
  | cons q rest ih =>
    cases hr : (random_init (HostTensor.make q.element_type q.shape) e).error with
    | some msg => simp [make_args, hr] at herr
    | none =>
      simp only [make_args, hr] at herr ⊢
      cases k with
      | zero =>
        simp only [List.getElem?_cons_zero, Option.some.injEq] at hp
        subst hp
        simp
      | succ n =>
        simp only [List.getElem?_cons_succ] at hp ⊢
        have := ih _ _ _ n herr hp
        rw [this.1, this.2]
        exact ⟨by congr 2; omega, rfl⟩

theorem clear_stale_keeps_false {σ : Type} (B : Backend σ) (hS : StaleOnlyBySetStale B)
    (args : List Tensor) (cs : List Bool) (s : σ) (t : Tensor)
    (h : B.get_stale t s = false) : B.get_stale t (clear_stale B args cs s).2 = false := by
  induction args generalizing cs s with
  | nil => simpa [clear_stale] using h
  | cons a rest ih =>
    cases cs with
    | nil => simpa [clear_stale] using h
    | cons c cs =>
      simp only [clear_stale]
      split
      · apply ih
        rw [hS.set_stale]
        split
        · rfl
        · exact h
      · exact ih _ _ h

theorem clear_stale_clears {σ : Type} (B : Backend σ) (hS : StaleOnlyBySetStale B)
    (args : List Tensor) (cs : List Bool) (s : σ) (t : Tensor) (k : Nat)
    (ht : args[k]? = some t) (hc : cs[k]? = some true) :
    B.get_stale t (clear_stale B args cs s).2 = false := by
  induction args generalizing cs s k with
  | nil => simp at ht
  | cons a rest ih =>
    cases cs with
    | nil => simp at hc
    | cons c cs =>
      cases k with
      | zero =>
        simp only [List.getElem?_cons_zero, Option.some.injEq] at ht hc
        subst ht hc
        simp only [clear_stale, if_true]
        apply clear_stale_keeps_false B hS
        rw [hS.set_stale]
        simp
      | succ n =>
        simp only [List.getElem?_cons_succ] at ht hc
        simp only [clear_stale]
        split
        · exact ih _ _ n ht hc
        · exact ih _ _ n ht hc

theorem write_stale_args_skips {σ : Type} (B : Backend σ) (hS : StaleOnlyBySetStale B)
    (args : List Tensor) (arg_data : List HostTensor) (s : σ) (t : Tensor)
    (h : B.get_stale t s = false) :
    (write_stale_args B args arg_data s).1.countP (Op.is_write_to t) = 0 ∧
    B.get_stale t (write_stale_args B args arg_data s).2 = false := by
  induction args generalizing arg_data s with
  | nil => simpa [write_stale_args] using h
  | cons a rest ih =>
    cases arg_data with
    | nil => simpa [write_stale_args] using h
    | cons d ds =>
      simp only [write_stale_args]
      by_cases ha : B.get_stale a s = true
      · have hne : ¬ (a = t) := by
          intro hat
          rw [hat, h] at ha
          exact Bool.false_ne_true ha
        have h2 : B.get_stale t (B.write a d.buffer d.byte_size s) = false := by
          rw [hS.write]
          exact h
        simp only [ha, if_true, List.countP_cons, Op.is_write_to, hne, decide_False,
          Bool.false_eq_true, if_false, Nat.add_zero]
        exact ih _ _ h2
      · simp only [ha, if_false, List.countP_cons, Op.is_write_to, Bool.false_eq_true,
          Nat.add_zero]
        exact ih _ _ h

theorem read_results_keeps_stale {σ : Type} (B : Backend σ) (hS : StaleOnlyBySetStale B)
    (results : List Tensor) (result_data : List HostTensor) (s : σ) (t : Tensor) :
    (read_results B results result_data s).1.countP (Op.is_write_to t) = 0 ∧
    B.get_stale t (read_results B results result_data s).2.2 = B.get_stale t s := by
  induction results generalizing result_data s with
  | nil => simp [read_results]
  | cons a rest ih =>
    cases result_data with
    | nil => simp [read_results]
    | cons d ds =>
      simp only [read_results, List.countP_cons, Op.is_write_to, Bool.false_eq_true, if_false,
        Nat.add_zero]
      refine ⟨(ih _ _).1, ?_⟩
      rw [(ih _ _).2, hS.read]

theorem iteration_skips {σ : Type} (B : Backend σ) (hS : StaleOnlyBySetStale B)
    (cd : Bool) (w : Int) (args : List Tensor) (arg_data : List HostTensor)
    (results : List Tensor) (st : LoopState σ) (i : Nat) (t : Tensor)
    (h : B.get_stale t st.backend = false) :
    (iteration B cd w args arg_data results st i).ops.countP (Op.is_write_to t) =
      st.ops.countP (Op.is_write_to t) ∧
    B.get_stale t (iteration B cd w args arg_data results st i).backend = false := by
  have hstart : (if i = size_t_of_int w then [Op.t1_start] else []).countP
      (Op.is_write_to t) = 0 := by
    split <;> rfl
  cases cd
  · simp only [iteration, Bool.false_eq_true, if_false, List.countP_append, hstart,
      List.countP_cons, List.countP_nil, Op.is_write_to, hS.call, h]
    simp
  · obtain ⟨hw1, hw2⟩ := write_stale_args_skips B hS args arg_data st.backend t h
    have hr := read_results_keeps_stale B hS results st.result_data
      (B.call results args (write_stale_args B args arg_data st.backend).2) t
    simp only [iteration, if_true, List.countP_append, hstart, List.countP_cons,
      List.countP_nil, Op.is_write_to, hw1, hr.1, hr.2, hS.call, hw2]
    simp

theorem loop_skips {σ : Type} (B : Backend σ) (hS : StaleOnlyBySetStale B)
    (cd : Bool) (w : Int) (args : List Tensor) (arg_data : List HostTensor)
    (results : List Tensor) (result_data : List HostTensor) (s : σ) (t : Tensor)
    (h : B.get_stale t s = false) (k : Nat) :
    (iterations_done B cd w args arg_data results result_data s k).ops.countP
      (Op.is_write_to t) = 0 ∧
    B.get_stale t (iterations_done B cd w args arg_data results result_data s k).backend =
      false := by
  induction k with
  | zero => exact ⟨rfl, h⟩
  | succ n ih =>
    rw [iterations_done_succ]
    have := iteration_skips B hS cd w args arg_data results
      (iterations_done B cd w args arg_data results result_data s n) n t ih.2
    exact ⟨by rw [this.1, ih.1], this.2⟩

theorem make_results_no_write {σ : Type} (B : Backend σ) (rs : List ResultNode)
    (index : Nat) (s : σ) (t : Tensor) :
    (make_results B rs index s).ops.countP (Op.is_write_to t) = 0 := by
  induction rs generalizing index s with
  | nil => rfl
  | cons r rest ih => simp [make_results, List.countP_cons, Op.is_write_to, ih]

theorem clear_stale_no_write {σ : Type} (B : Backend σ) (args : List Tensor)
    (cs : List Bool) (s : σ) (t : Tensor) :
    (clear_stale B args cs s).1.countP (Op.is_write_to t) = 0 := by
  induction args generalizing cs s with
  | nil => simp [clear_stale]
  | cons a rest ih =>
    cases cs with
    | nil => simp [clear_stale]
    | cons c cs =>
      simp only [clear_stale]
      split
      · simp [List.countP_cons, Op.is_write_to, ih]
      · exact ih _ _

theorem run_benchmark_setup_cacheable {σ : Type} (B : Backend σ)
    (hS : StaleOnlyBySetStale B) (f : Function) (backend_name : String)
    (timing_detail : Bool) (s : σ) (e : Engine) (i : Nat) (p : Parameter)
    (hp : f.parameters[i]? = some p) (hc : p.cacheable = true) :
    (run_benchmark_setup B f backend_name timing_detail s e).ops.countP
      (Op.is_write_to (Tensor.arg 0 i)) ≤ 1 ∧
    ((run_benchmark_setup B f backend_name timing_detail s e).error = none →
      (run_benchmark_setup B f backend_name timing_detail s e).ops.countP
        (Op.is_write_to (Tensor.arg 0 i)) = 1 ∧
      (run_benchmark_setup B f backend_name timing_detail s e).args[i]? =
        some (Tensor.arg 0 i) ∧
      B.get_stale (Tensor.arg 0 i)
        (run_benchmark_setup B f backend_name timing_detail s e).backend = false) := by
  have hcomp : (compile_ops backend_name timing_detail).countP
      (Op.is_write_to (Tensor.arg 0 i)) = 0 := rfl
  have hden : [Op.set_denormals_flush_to_zero].countP (Op.is_write_to (Tensor.arg 0 i)) = 0 :=
    rfl
  obtain ⟨ha1, -, ha3⟩ := make_args_write_count B f.parameters 0 s e i
  have hlen : i < f.parameters.length := by
    rcases Nat.lt_or_ge i f.parameters.length with h | h
    · exact h
    · rw [List.getElem?_eq_none h] at hp
      cases hp
  cases herr : (make_args B f.parameters 0 s e).error with
  | some msg =>
    simp only [run_benchmark_setup, herr, List.countP_append, hcomp]
    exact ⟨by omega, fun h => by cases h⟩
  | none =>
    have hslots := make_args_slots B f.parameters 0 s e i p herr hp
    rw [Nat.zero_add, hc] at hslots
    have hone := ha3 herr (Nat.zero_le _) (by rw [Nat.zero_add]; exact hlen)
    simp only [run_benchmark_setup, herr, List.countP_append, hcomp, hden, hone,
      make_results_no_write, clear_stale_no_write]
    exact ⟨by omega, fun _ => ⟨trivial, hslots.1,
      clear_stale_clears B hS _ _ _ _ i hslots.1 hslots.2⟩⟩

/-- C6: over a backend on which a tensor's staleness flag changes only through
`set_stale`, in a run of `run_benchmark` with `copy_data = true` the device tensor of a
cacheable parameter `i` is the target of at most one `write` in the whole trace; when
the run reaches the loop that one write is the seeding write of the setup, the flag of
the tensor reads false at loop entry, and the operations of the first `k` passes of the
iteration loop contain no write to it, for every `k`. -/
theorem cacheable_parameter_written_once {σ : Type} (B : Backend σ)
    (hS : StaleOnlyBySetStale B) (f : Function) (backend_name : String) (iterations : Nat)
    (timing_detail : Bool) (warmup_iterations : Int) (s : σ) (e : Engine) (i : Nat)
    (p : Parameter) (hp : f.parameters[i]? = some p) (hc : p.cacheable = true) :
    (run_benchmark B f backend_name iterations timing_detail warmup_iterations true
      s e).trace.countP (Op.is_write_to (Tensor.arg 0 i)) ≤ 1 ∧
    ((run_benchmark B f backend_name iterations timing_detail warmup_iterations true
        s e).error = none →
      (run_benchmark_setup B f backend_name timing_detail s e).args[i]? =
        some (Tensor.arg 0 i) ∧
      (run_benchmark_setup B f backend_name timing_detail s e).ops.countP
        (Op.is_write_to (Tensor.arg 0 i)) = 1 ∧
      B.get_stale (Tensor.arg 0 i)
        (run_benchmark_setup B f backend_name timing_detail s e).backend = false ∧
      ∀ k : Nat,
        (iterations_done B true warmup_iterations
          (run_benchmark_setup B f backend_name timing_detail s e).args
          (run_benchmark_setup B f backend_name timing_detail s e).arg_data
          (run_benchmark_setup B f backend_name timing_detail s e).results
          (run_benchmark_setup B f backend_name timing_detail s e).result_data
          (run_benchmark_setup B f backend_name timing_detail s e).backend k).ops.countP
            (Op.is_write_to (Tensor.arg 0 i)) = 0) := by
  obtain ⟨h1, h2⟩ := run_benchmark_setup_cacheable B hS f backend_name timing_detail s e i p
    hp hc
  rw [run_benchmark_error]
  cases herr : (run_benchmark_setup B f backend_name timing_detail s e).error with
  | some msg =>
    refine ⟨?_, fun h => by cases h⟩
    simp only [run_benchmark, herr]
    exact h1
  | none =>
    obtain ⟨h3, h4, h5⟩ := h2 herr
    have hloop := fun k => (loop_skips B hS true warmup_iterations
      (run_benchmark_setup B f backend_name timing_detail s e).args
      (run_benchmark_setup B f backend_name timing_detail s e).arg_data
      (run_benchmark_setup B f backend_name timing_detail s e).results
      (run_benchmark_setup B f backend_name timing_detail s e).result_data
      (run_benchmark_setup B f backend_name timing_detail s e).backend
      (Tensor.arg 0 i) h5 k).1
    refine ⟨?_, fun _ => ⟨h4, h3, h5, hloop⟩⟩
    rw [run_benchmark_trace B f backend_name iterations timing_detail warmup_iterations true
      s e herr, List.countP_append, List.countP_append, h3, hloop]
    simp [List.countP_cons, Op.is_write_to]

theorem store_backend_stale : StaleOnlyBySetStale store_backend :=
  ⟨fun _ _ _ _ _ => rfl, fun _ _ _ _ => rfl, fun _ _ _ _ => rfl,
    fun t u _ _ s h => by simp [store_backend, h], fun _ _ _ _ => rfl⟩

/-- Witness of `cacheable_parameter_written_once`: the one-parameter graph with the
parameter cacheable, on the storing backend, three measured iterations after one
warm-up iteration. -/
theorem cacheable_parameter_written_once_witness :
    StaleOnlyBySetStale store_backend ∧
    (identity_graph true).parameters[0]? = some ⟨Type_t.f32, [2], true⟩ ∧
    (⟨Type_t.f32, [2], true⟩ : Parameter).cacheable = true ∧
    (run_benchmark store_backend (identity_graph true) "CPU" 3 false 1 true Store.init
      (Engine.const 0)).error = none ∧
    (run_benchmark store_backend (identity_graph true) "CPU" 3 false 1 true Store.init
      (Engine.const 0)).trace.countP (Op.is_write_to (Tensor.arg 0 0)) ≤ 1 ∧
    ((run_benchmark store_backend (identity_graph true) "CPU" 3 false 1 true Store.init
        (Engine.const 0)).error = none →
      (run_benchmark_setup store_backend (identity_graph true) "CPU" false Store.init
        (Engine.const 0)).args[0]? = some (Tensor.arg 0 0) ∧
      (run_benchmark_setup store_backend (identity_graph true) "CPU" false Store.init
        (Engine.const 0)).ops.countP (Op.is_write_to (Tensor.arg 0 0)) = 1 ∧
      store_backend.get_stale (Tensor.arg 0 0)
        (run_benchmark_setup store_backend (identity_graph true) "CPU" false Store.init
          (Engine.const 0)).backend = false ∧
      ∀ k : Nat,
        (iterations_done store_backend true 1
          (run_benchmark_setup store_backend (identity_graph true) "CPU" false Store.init
            (Engine.const 0)).args
          (run_benchmark_setup store_backend (identity_graph true) "CPU" false Store.init
            (Engine.const 0)).arg_data
          (run_benchmark_setup store_backend (identity_graph true) "CPU" false Store.init
            (Engine.const 0)).results
          (run_benchmark_setup store_backend (identity_graph true) "CPU" false Store.init
            (Engine.const 0)).result_data
          (run_benchmark_setup store_backend (identity_graph true) "CPU" false Store.init
            (Engine.const 0)).backend k).ops.countP
            (Op.is_write_to (Tensor.arg 0 0)) = 0) :=
  ⟨store_backend_stale, by decide, by decide, by decide,
    cacheable_parameter_written_once store_backend store_backend_stale (identity_graph true)
      "CPU" 3 false 1 Store.init (Engine.const 0) 0 ⟨Type_t.f32, [2], true⟩ (by decide)
      (by decide)⟩

/-! ## Round trip through the storing backend -/

theorem random_init_keeps_shape (tensor : HostTensor) (e : Engine) :
    (random_init tensor e).tensor.element_type = tensor.element_type ∧
    (random_init tensor e).tensor.shape = tensor.shape := by
  cases h : tensor.element_type <;>
    simp [random_init, h, InitResult.ok, init_int_tensor, init_int_tensor_char,
      init_int_tensor_int8_t, init_int_tensor_uint8_t, init_int_tensor_narrow, init_real_tensor,
      HostTensor.write]

theorem store_iteration_round_trip (w : Int) (rt : HostTensor) (st : LoopState Store)
    (i : Nat) (hcontent : st.backend.content (Tensor.arg 0 0) = rt.buffer)
    (hsize : st.backend.size (Tensor.arg 0 0) = rt.byte_size)
    (hd : st.result_data.map HostTensor.byte_size = [rt.byte_size]) :
    (iteration store_backend true w [Tensor.arg 0 0] [rt] [Tensor.result 0 0] st
      i).backend.content (Tensor.arg 0 0) = rt.buffer ∧
    (iteration store_backend true w [Tensor.arg 0 0] [rt] [Tensor.result 0 0] st
      i).backend.size (Tensor.arg 0 0) = rt.byte_size ∧
    (iteration store_backend true w [Tensor.arg 0 0] [rt] [Tensor.result 0 0] st
      i).result_data.map HostTensor.byte_size = [rt.byte_size] ∧
    (iteration store_backend true w [Tensor.arg 0 0] [rt] [Tensor.result 0 0] st
      i).result_data.map HostTensor.buffer = [rt.buffer] := by
  obtain ⟨ops, backend, result_data⟩ := st
  cases result_data with
  | nil => simp at hd
  | cons h tl =>
    cases tl with
    | cons h2 tl2 => simp at hd
    | nil =>
      simp only [List.map_cons, List.map_nil, List.cons.injEq, and_true] at hd
      simp only at hcontent hsize
      cases hst : backend.stale (Tensor.arg 0 0) <;>
        simp [iteration, write_stale_args, read_results, store_backend, call_copy, hst,
          hcontent, hsize, hd] <;>
        simpa [HostTensor.byte_size, HostTensor.get_element_count] using hd

/-- C9: over the storing backend, for a graph with one parameter of a supported element
type and one result of the same element type and shape, `run_benchmark` with
`copy_data = true` reaches the loop with the parameter's host tensor holding the content
`random_init` generated, and after each of the first `k >= 1` passes of the iteration
loop the content of the result's host tensor equals that content, whatever the
parameter's cacheable flag; so does the result host tensor the run ends with when the
loop bound is positive. -/
theorem identity_round_trip (p : Parameter) (r : ResultNode) (backend_name : String)
    (iterations : Nat) (timing_detail : Bool) (warmup_iterations : Int) (s : Store)
    (e : Engine) (k : Nat)
    (het : r.element_type = p.element_type) (hshape : r.shape = p.shape)
    (hsup : p.element_type.supported = true) (hk : 1 ≤ k) :
    (run_benchmark_setup store_backend ⟨[p], [r]⟩ backend_name timing_detail s e).error =
      none ∧
    (run_benchmark_setup store_backend ⟨[p], [r]⟩ backend_name timing_detail s e).arg_data =
      [(random_init (HostTensor.make p.element_type p.shape) e).tensor] ∧
    (iterations_done store_backend true warmup_iterations
      (run_benchmark_setup store_backend ⟨[p], [r]⟩ backend_name timing_detail s e).args
      (run_benchmark_setup store_backend ⟨[p], [r]⟩ backend_name timing_detail s e).arg_data
      (run_benchmark_setup store_backend ⟨[p], [r]⟩ backend_name timing_detail s e).results
      (run_benchmark_setup store_backend ⟨[p], [r]⟩ backend_name timing_detail s e).result_data
      (run_benchmark_setup store_backend ⟨[p], [r]⟩ backend_name timing_detail s e).backend
      k).result_data.map HostTensor.buffer =
        [(random_init (HostTensor.make p.element_type p.shape) e).tensor.buffer] ∧
    (1 ≤ loop_bound iterations warmup_iterations →
      (run_benchmark store_backend ⟨[p], [r]⟩ backend_name iterations timing_detail
        warmup_iterations true s e).result_data.map HostTensor.buffer =
      (run_benchmark store_backend ⟨[p], [r]⟩ backend_name iterations timing_detail
        warmup_iterations true s e).arg_data.map HostTensor.buffer) := by
  have hrand : (random_init (HostTensor.make p.element_type p.shape) e).error = none :=
    random_init_supported _ e hsup
  have herr : (run_benchmark_setup store_backend ⟨[p], [r]⟩ backend_name timing_detail
      s e).error = none := by
    simp [run_benchmark_setup, make_args, hrand]
  have hargs : (run_benchmark_setup store_backend ⟨[p], [r]⟩ backend_name timing_detail
      s e).args = [Tensor.arg 0 0] := by
    simp [run_benchmark_setup, make_args, hrand]
  have hdata : (run_benchmark_setup store_backend ⟨[p], [r]⟩ backend_name timing_detail
      s e).arg_data = [(random_init (HostTensor.make p.element_type p.shape) e).tensor] := by
    simp [run_benchmark_setup, make_args, hrand]
  have hres : (run_benchmark_setup store_backend ⟨[p], [r]⟩ backend_name timing_detail
      s e).results = [Tensor.result 0 0] := by
    simp [run_benchmark_setup, make_args, hrand, make_results]
  have hrd : (run_benchmark_setup store_backend ⟨[p], [r]⟩ backend_name timing_detail
      s e).result_data = [HostTensor.make r.element_type r.shape] := by
    simp [run_benchmark_setup, make_args, hrand, make_results]
  have hcontent : (run_benchmark_setup store_backend ⟨[p], [r]⟩ backend_name timing_detail
      s e).backend.content (Tensor.arg 0 0) =
      (random_init (HostTensor.make p.element_type p.shape) e).tensor.buffer := by
    cases hc : p.cacheable <;>
      simp [run_benchmark_setup, make_args, hrand, make_results, clear_stale, store_backend, hc]
  have hsize : (run_benchmark_setup store_backend ⟨[p], [r]⟩ backend_name timing_detail
      s e).backend.size (Tensor.arg 0 0) =
      (random_init (HostTensor.make p.element_type p.shape) e).tensor.byte_size := by
    cases hc : p.cacheable <;>
      simp [run_benchmark_setup, make_args, hrand, make_results, clear_stale, store_backend, hc]
  have hbytes : [HostTensor.make r.element_type r.shape].map HostTensor.byte_size =
      [(random_init (HostTensor.make p.element_type p.shape) e).tensor.byte_size] := by
    obtain ⟨h1, h2⟩ := random_init_keeps_shape (HostTensor.make p.element_type p.shape) e
    simp only [List.map_cons, List.map_nil, HostTensor.byte_size,
      HostTensor.get_element_count, h1, h2]
    simp [HostTensor.make, het, hshape]
  have hloop : ∀ n : Nat, 1 ≤ n →
      (iterations_done store_backend true warmup_iterations
        (run_benchmark_setup store_backend ⟨[p], [r]⟩ backend_name timing_detail s e).args
        (run_benchmark_setup store_backend ⟨[p], [r]⟩ backend_name timing_detail s e).arg_data
        (run_benchmark_setup store_backend ⟨[p], [r]⟩ backend_name timing_detail s e).results
        (run_benchmark_setup store_backend ⟨[p], [r]⟩ backend_name timing_detail
          s e).result_data
        (run_benchmark_setup store_backend ⟨[p], [r]⟩ backend_name timing_detail s e).backend
        n).result_data.map HostTensor.buffer =
          [(random_init (HostTensor.make p.element_type p.shape) e).tensor.buffer] := by
    rw [hargs, hdata, hres, hrd]
    generalize (run_benchmark_setup store_backend ⟨[p], [r]⟩ backend_name timing_detail
      s e).backend = s1 at hcontent hsize
    have inv : ∀ n : Nat,
        (iterations_done store_backend true warmup_iterations [Tensor.arg 0 0]
          [(random_init (HostTensor.make p.element_type p.shape) e).tensor]
          [Tensor.result 0 0] [HostTensor.make r.element_type r.shape] s1
          n).backend.content (Tensor.arg 0 0) =
            (random_init (HostTensor.make p.element_type p.shape) e).tensor.buffer ∧
        (iterations_done store_backend true warmup_iterations [Tensor.arg 0 0]
          [(random_init (HostTensor.make p.element_type p.shape) e).tensor]
          [Tensor.result 0 0] [HostTensor.make r.element_type r.shape] s1
          n).backend.size (Tensor.arg 0 0) =
            (random_init (HostTensor.make p.element_type p.shape) e).tensor.byte_size ∧
        (iterations_done store_backend true warmup_iterations [Tensor.arg 0 0]
          [(random_init (HostTensor.make p.element_type p.shape) e).tensor]
          [Tensor.result 0 0] [HostTensor.make r.element_type r.shape] s1
          n).result_data.map HostTensor.byte_size =
            [(random_init (HostTensor.make p.element_type p.shape) e).tensor.byte_size] := by
      intro n
      induction n with
      | zero => exact ⟨hcontent, hsize, hbytes⟩
      | succ m ih =>
        rw [iterations_done_succ]
        have := store_iteration_round_trip warmup_iterations _ _ m ih.1 ih.2.1 ih.2.2
        exact ⟨this.1, this.2.1, this.2.2.1⟩
    intro n hn
    obtain ⟨m, rfl⟩ : ∃ m, n = m + 1 := ⟨n - 1, by omega⟩
    rw [iterations_done_succ]
    exact (store_iteration_round_trip warmup_iterations _ _ m (inv m).1 (inv m).2.1
      (inv m).2.2).2.2.2
  refine ⟨herr, hdata, hloop k hk, fun hb => ?_⟩
  have h1 : (run_benchmark store_backend ⟨[p], [r]⟩ backend_name iterations timing_detail
      warmup_iterations true s e).result_data =
      (iterations_done store_backend true warmup_iterations
        (run_benchmark_setup store_backend ⟨[p], [r]⟩ backend_name timing_detail s e).args
        (run_benchmark_setup store_backend ⟨[p], [r]⟩ backend_name timing_detail s e).arg_data
        (run_benchmark_setup store_backend ⟨[p], [r]⟩ backend_name timing_detail s e).results
        (run_benchmark_setup store_backend ⟨[p], [r]⟩ backend_name timing_detail
          s e).result_data
        (run_benchmark_setup store_backend ⟨[p], [r]⟩ backend_name timing_detail s e).backend
        (loop_bound iterations warmup_iterations)).result_data := by
    unfold run_benchmark
    simp only [herr]
  have h2 : (run_benchmark store_backend ⟨[p], [r]⟩ backend_name iterations timing_detail
      warmup_iterations true s e).arg_data =
      (run_benchmark_setup store_backend ⟨[p], [r]⟩ backend_name timing_detail s e).arg_data := by
    unfold run_benchmark
    simp only [herr]
  rw [h1, h2, hloop _ hb, hdata]
  rfl

/-- Witness of `identity_round_trip`: a cacheable `f32` parameter of shape `[2]`, the
state after the third pass of a loop of four. -/
theorem identity_round_trip_witness :
    (⟨Type_t.f32, [2]⟩ : ResultNode).element_type =
      (⟨Type_t.f32, [2], true⟩ : Parameter).element_type ∧
    (⟨Type_t.f32, [2]⟩ : ResultNode).shape = (⟨Type_t.f32, [2], true⟩ : Parameter).shape ∧
    (⟨Type_t.f32, [2], true⟩ : Parameter).element_type.supported = true ∧
    1 ≤ 3 ∧
    (run_benchmark_setup store_backend ⟨[⟨Type_t.f32, [2], true⟩], [⟨Type_t.f32, [2]⟩]⟩ "CPU"
      false Store.init (Engine.const 4)).error = none ∧
    (run_benchmark_setup store_backend ⟨[⟨Type_t.f32, [2], true⟩], [⟨Type_t.f32, [2]⟩]⟩ "CPU"
      false Store.init (Engine.const 4)).arg_data =
        [(random_init (HostTensor.make Type_t.f32 [2]) (Engine.const 4)).tensor] ∧
    (iterations_done store_backend true 1
      (run_benchmark_setup store_backend ⟨[⟨Type_t.f32, [2], true⟩], [⟨Type_t.f32, [2]⟩]⟩
        "CPU" false Store.init (Engine.const 4)).args
      (run_benchmark_setup store_backend ⟨[⟨Type_t.f32, [2], true⟩], [⟨Type_t.f32, [2]⟩]⟩
        "CPU" false Store.init (Engine.const 4)).arg_data
      (run_benchmark_setup store_backend ⟨[⟨Type_t.f32, [2], true⟩], [⟨Type_t.f32, [2]⟩]⟩
        "CPU" false Store.init (Engine.const 4)).results
      (run_benchmark_setup store_backend ⟨[⟨Type_t.f32, [2], true⟩], [⟨Type_t.f32, [2]⟩]⟩
        "CPU" false Store.init (Engine.const 4)).result_data
      (run_benchmark_setup store_backend ⟨[⟨Type_t.f32, [2], true⟩], [⟨Type_t.f32, [2]⟩]⟩
        "CPU" false Store.init (Engine.const 4)).backend
      3).result_data.map HostTensor.buffer =
        [(random_init (HostTensor.make Type_t.f32 [2]) (Engine.const 4)).tensor.buffer] ∧
    (1 ≤ loop_bound 3 1 →
      (run_benchmark store_backend ⟨[⟨Type_t.f32, [2], true⟩], [⟨Type_t.f32, [2]⟩]⟩ "CPU" 3
        false 1 true Store.init (Engine.const 4)).result_data.map HostTensor.buffer =
      (run_benchmark store_backend ⟨[⟨Type_t.f32, [2], true⟩], [⟨Type_t.f32, [2]⟩]⟩ "CPU" 3
        false 1 true Store.init (Engine.const 4)).arg_data.map HostTensor.buffer) :=
  ⟨rfl, rfl, by decide, by decide,
    identity_round_trip ⟨Type_t.f32, [2], true⟩ ⟨Type_t.f32, [2]⟩ "CPU" 3 false 1 Store.init
      (Engine.const 4) 3 rfl rfl (by decide) (by decide)⟩

/-! ## Narrow integer types -/

theorem cast_int8_small (v : Int) (h0 : -1 ≤ v) (h1 : v ≤ 1) : wrap_signed 8 v = v := by
  unfold wrap_signed
  norm_num
  omega

theorem cast_uint8_small (v : Int) (h0 : 0 ≤ v) (h1 : v ≤ 1) : wrap_unsigned 8 v = v := by
  unfold wrap_unsigned
  norm_num
  omega

theorem init_int_tensor_narrow_range (T : CType) (tensor : HostTensor) (a : Int) (e : Engine)
    (ha0 : -1 ≤ a) (ha1 : a ≤ 1) (hT : ∀ v : Int, a ≤ v → v ≤ 1 → static_cast T v = v) :
    ∀ x ∈ (init_int_tensor_narrow T tensor a 1 e).1.buffer,
      ∃ v : Int, x = Elem.int v ∧ a ≤ v ∧ v ≤ 1 := by
  have hlo : static_cast CType.int16_t a = a := by
    simp only [static_cast, wrap_signed]
    norm_num
    omega
  have hhi : static_cast CType.int16_t 1 = 1 := by
    simp only [static_cast, wrap_signed]
    norm_num
  intro x hx
  simp only [init_int_tensor_narrow, HostTensor.write, hlo, hhi] at hx
  refine fill_vec_forall _ (fun x => ∃ v : Int, x = Elem.int v ∧ a ≤ v ∧ v ≤ 1)
    (fun g => ?_) _ e x hx
  have hr := uniform_int_distribution_range a 1 ha1 g
  exact ⟨_, congrArg Elem.int (hT _ hr.1 hr.2), hr.1, hr.2⟩

/-- C14: for the element types boolean, i8 and u8 every element `random_init` stores is an
integer within the bounds of its arm of the switch (boolean `[0, 1]`, i8 `[-1, 1]`,
u8 `[0, 1]`); and for every intermediate value `v` within those bounds the cast
to the storage type returns `v`: `char` (signed, and unsigned as well) and `uint8_t` on
`[0, 1]`, `int8_t` on `[-1, 1]`. -/
theorem random_init_narrow_within_bounds (tensor : HostTensor) (e : Engine)
    (het : tensor.element_type ∈ [Type_t.boolean, Type_t.i8, Type_t.u8]) :
    (∀ x ∈ (random_init tensor e).tensor.buffer,
      ∃ v : Int, x = Elem.int v ∧
        (if tensor.element_type = Type_t.i8 then -1 else 0) ≤ v ∧ v ≤ 1) ∧
    (∀ v : Int, 0 ≤ v → v ≤ 1 → static_cast CType.char v = v ∧ wrap_unsigned 8 v = v) ∧
    (∀ v : Int, -1 ≤ v → v ≤ 1 → static_cast CType.int8_t v = v) ∧
    (∀ v : Int, 0 ≤ v → v ≤ 1 → static_cast CType.uint8_t v = v) := by
  have hchar : ∀ v : Int, 0 ≤ v → v ≤ 1 → static_cast CType.char v = v :=
    fun v h0 h1 => cast_int8_small v (by omega) h1
  have hi8 : ∀ v : Int, -1 ≤ v → v ≤ 1 → static_cast CType.int8_t v = v :=
    fun v h0 h1 => cast_int8_small v h0 h1
  have hu8 : ∀ v : Int, 0 ≤ v → v ≤ 1 → static_cast CType.uint8_t v = v :=
    fun v h0 h1 => cast_uint8_small v h0 h1
  refine ⟨?_, fun v h0 h1 => ⟨hchar v h0 h1, cast_uint8_small v h0 h1⟩, hi8, hu8⟩
  cases h : tensor.element_type <;> simp [h] at het <;>
    simp only [random_init, h, InitResult.ok, if_true, if_false, reduceCtorEq,
      init_int_tensor_char, init_int_tensor_int8_t, init_int_tensor_uint8_t]
  · exact init_int_tensor_narrow_range _ tensor 0 e (by decide) (by decide) hchar
  · exact init_int_tensor_narrow_range _ tensor (-1) e (by decide) (by decide) hi8
  · exact init_int_tensor_narrow_range _ tensor 0 e (by decide) (by decide) hu8

/-- Witness of `random_init_narrow_within_bounds`: an `i8` tensor of shape `[3]`. -/
theorem random_init_narrow_within_bounds_witness :
    (∀ x ∈ (random_init (HostTensor.make Type_t.i8 [3]) (Engine.const 2)).tensor.buffer,
      ∃ v : Int, x = Elem.int v ∧
        (if (HostTensor.make Type_t.i8 [3]).element_type = Type_t.i8 then -1 else 0) ≤ v ∧
        v ≤ 1) ∧
    (∀ v : Int, 0 ≤ v → v ≤ 1 → static_cast CType.char v = v ∧ wrap_unsigned 8 v = v) ∧
    (∀ v : Int, -1 ≤ v → v ≤ 1 → static_cast CType.int8_t v = v) ∧
    (∀ v : Int, 0 ≤ v → v ≤ 1 → static_cast CType.uint8_t v = v) :=
  random_init_narrow_within_bounds (HostTensor.make Type_t.i8 [3]) (Engine.const 2)
    (by decide)

/-! ## The pipelined runner: independence of `copy_data` and of the cacheable flags -/

theorem make_buffer_args_congr (set : Nat) (ps qs : List Parameter) (index : Nat) (e : Engine)
    (h : qs.map (fun p => (p.element_type, p.shape)) =
      ps.map (fun p => (p.element_type, p.shape))) :
    make_buffer_args set qs index e = make_buffer_args set ps index e := by
  induction ps generalizing qs index e with
  | nil =>
    cases qs with
    | nil => rfl
    | cons q rest => simp at h
  | cons p rest ih =>
    cases qs with
    | nil => simp at h
    | cons q qrest =>
      simp only [List.map_cons, List.cons.injEq, Prod.mk.injEq] at h
      obtain ⟨⟨h1, h2⟩, h3⟩ := h
      simp only [make_buffer_args, h1, h2]
      split
      · rfl
      · rw [ih qrest _ _ h3]

theorem make_buffer_sets_congr (f g : Function) (e : Engine)
    (hp : g.parameters.map (fun p => (p.element_type, p.shape)) =
      f.parameters.map (fun p => (p.element_type, p.shape)))
    (hr : g.results = f.results) :
    make_buffer_sets g e = make_buffer_sets f e := by
  simp only [make_buffer_sets, hr, make_buffer_args_congr _ f.parameters g.parameters _ _ hp]

theorem make_buffer_args_length (set : Nat) (ps : List Parameter) (index : Nat) (e : Engine)
    (herr : (make_buffer_args set ps index e).error = none) :
    (make_buffer_args set ps index e).args.length = ps.length ∧
    (make_buffer_args set ps index e).args_data.length = ps.length := by
  induction ps generalizing index e with
  | nil => exact ⟨rfl, rfl⟩
  | cons p rest ih =>
    cases hr : (random_init (HostTensor.make p.element_type p.shape) e).error with
    | some msg => simp [make_buffer_args, hr] at herr
    | none =>
      simp only [make_buffer_args, hr] at herr ⊢
      have := ih _ _ herr
      simp [this.1, this.2]

theorem make_buffer_sets_length (f : Function) (e : Engine)
    (herr : (make_buffer_sets f e).error = none) :
    ((make_buffer_sets f e).args_set.getD 0 []).length = f.parameters.length ∧
    ((make_buffer_sets f e).args_data_set.getD 0 []).length = f.parameters.length := by
  cases h0 : (make_buffer_args 0 f.parameters 0 e).error with
  | some msg => simp [make_buffer_sets, h0] at herr
  | none =>
    have hlen := make_buffer_args_length 0 f.parameters 0 e h0
    cases h1 : (make_buffer_args 1 f.parameters 0
        (make_buffer_args 0 f.parameters 0 e).engine).error with
    | some msg => simp [make_buffer_sets, h0, h1] at herr
    | none =>
      simp only [make_buffer_sets, h0, h1]
      exact hlen

theorem begin_write_all_targets (args : List Tensor) (args_data : List HostTensor) (b : Nat)
    (hlen : args.length = args_data.length) :
    (begin_write_all args args_data b).map Op.transfer_tensor = args.map some := by
  induction args generalizing args_data with
  | nil => simp [begin_write_all]
  | cons a rest ih =>
    cases args_data with
    | nil => simp at hlen
    | cons d ds =>
      simp only [List.length_cons, Nat.add_right_cancel_iff] at hlen
      simp [begin_write_all, Op.transfer_tensor, ih ds hlen]

theorem pipelined_trace_at (f : Function) (backend_name : String) (iterations : Nat)
    (timing_detail : Bool) (w : Int) (copy_data : Bool) (e : Engine)
    (herr : (make_buffer_sets f e).error = none) (i : Nat)
    (hi : i < loop_bound iterations w) :
    (run_benchmark_double_buffered f backend_name iterations timing_detail w copy_data e).trace =
      (compile_ops backend_name timing_detail ++ [Op.set_denormals_flush_to_zero] ++
        (make_buffer_sets f e).ops ++
        begin_write_all ((make_buffer_sets f e).args_set.getD 0 [])
          ((make_buffer_sets f e).args_data_set.getD 0 []) 0 ++
        (List.range i).flatMap
          (fun j => pipelined_iteration_ops w ((make_buffer_sets f e).args_set.getD 0 [])
            ((make_buffer_sets f e).args_data_set.getD 0 [])
            ((make_buffer_sets f e).results_set.getD 0 [])
            ((make_buffer_sets f e).results_data_set.getD 0 []) j (j % 2))) ++
      (pipelined_iteration_ops w ((make_buffer_sets f e).args_set.getD 0 [])
          ((make_buffer_sets f e).args_data_set.getD 0 [])
          ((make_buffer_sets f e).results_set.getD 0 [])
          ((make_buffer_sets f e).results_data_set.getD 0 []) i (i % 2) ++
        ((List.range (loop_bound iterations w - i - 1)).flatMap
          (fun j => pipelined_iteration_ops w ((make_buffer_sets f e).args_set.getD 0 [])
            ((make_buffer_sets f e).args_data_set.getD 0 [])
            ((make_buffer_sets f e).results_set.getD 0 [])
            ((make_buffer_sets f e).results_data_set.getD 0 []) (i + 1 + j)
            ((i + 1 + j) % 2)) ++
          begin_read_all ((make_buffer_sets f e).results_set.getD 0 [])
            ((make_buffer_sets f e).results_data_set.getD 0 [])
            ((loop_bound iterations w + 1) % 2) ++
          [Op.t1_stop, Op.print_ms_per_iteration iterations, Op.get_performance_data])) := by
  rw [pipelined_trace f backend_name iterations timing_detail w copy_data e herr,
    flatMap_range_split _ _ i hi]
  simp only [List.append_assoc]

theorem pipelined_setup_count (f : Function) (backend_name : String) (timing_detail : Bool)
    (w : Int) (e : Engine) (i : Nat) :
    (compile_ops backend_name timing_detail ++ [Op.set_denormals_flush_to_zero] ++
        (make_buffer_sets f e).ops ++
        begin_write_all ((make_buffer_sets f e).args_set.getD 0 [])
          ((make_buffer_sets f e).args_data_set.getD 0 []) 0 ++
        (List.range i).flatMap
          (fun j => pipelined_iteration_ops w ((make_buffer_sets f e).args_set.getD 0 [])
            ((make_buffer_sets f e).args_data_set.getD 0 [])
            ((make_buffer_sets f e).results_set.getD 0 [])
            ((make_buffer_sets f e).results_data_set.getD 0 []) j (j % 2))).countP
      Op.is_begin_execute = i := by
  have h0 : (begin_write_all ((make_buffer_sets f e).args_set.getD 0 [])
      ((make_buffer_sets f e).args_data_set.getD 0 []) 0).countP Op.is_begin_execute = 0 :=
    List.countP_eq_zero.2 (fun op hop => by simp [(begin_write_all_tag _ _ _ op hop).2.2.1])
  have hc : (compile_ops backend_name timing_detail).countP Op.is_begin_execute = 0 := rfl
  have hd : [Op.set_denormals_flush_to_zero].countP Op.is_begin_execute = 0 := rfl
  simp only [List.countP_append, pipelined_prefix_count,
    alloc_count_begin_execute _ (make_buffer_sets_alloc f e), h0, hc, hd]
  omega

theorem tagged_not_set_stale (op : Op) (b : Nat) (h : op.parity_tag = some b) :
    op.is_set_stale = false := by
  cases op <;> simp_all [Op.parity_tag, Op.is_set_stale]

theorem begin_write_all_kind (args : List Tensor) (args_data : List HostTensor) (b : Nat) :
    ∀ op ∈ begin_write_all args args_data b, op.is_begin_write = true := by
  induction args generalizing args_data with
  | nil => simp [begin_write_all]
  | cons a rest ih =>
    cases args_data with
    | nil => simp [begin_write_all]
    | cons d ds =>
      intro op hop
      simp only [begin_write_all, List.mem_cons] at hop
      rcases hop with rfl | hop
      · rfl
      · exact ih ds op hop

theorem begin_read_all_kind (results : List Tensor) (results_data : List HostTensor)
    (b : Nat) : ∀ op ∈ begin_read_all results results_data b, op.is_begin_read = true := by
  induction results generalizing results_data with
  | nil => simp [begin_read_all]
  | cons a rest ih =>
    cases results_data with
    | nil => simp [begin_read_all]
    | cons d ds =>
      intro op hop
      simp only [begin_read_all, List.mem_cons] at hop
      rcases hop with rfl | hop
      · rfl
      · exact ih ds op hop

theorem alloc_not_set_stale (op : Op) (h : op.is_alloc = true) : op.is_set_stale = false := by
  cases op <;> simp_all [Op.is_alloc, Op.is_set_stale]

theorem pipelined_iteration_ops_no_set_stale (w : Int) (args : List Tensor)
    (args_data : List HostTensor) (results : List Tensor) (results_data : List HostTensor)
    (i b : Nat) :
    ∀ op ∈ pipelined_iteration_ops w args args_data results results_data i b,
      op.is_set_stale = false := by
  intro op hop
  simp only [pipelined_iteration_ops, List.mem_append, List.mem_cons, List.mem_singleton,
    List.not_mem_nil, or_false] at hop
  rcases hop with (hop | rfl | hop | hop) | rfl
  · split at hop
    · simp only [List.mem_singleton] at hop
      subst hop
      rfl
    · simp at hop
  · rfl
  · split at hop
    · exact tagged_not_set_stale op _ (begin_read_all_tag _ _ _ op hop).1
    · simp at hop
  · exact tagged_not_set_stale op _ (begin_write_all_tag _ _ _ op hop).1
  · rfl

theorem pipelined_no_set_stale (f : Function) (backend_name : String) (iterations : Nat)
    (timing_detail : Bool) (w : Int) (copy_data : Bool) (e : Engine) :
    ∀ op ∈ (run_benchmark_double_buffered f backend_name iterations timing_detail w
      copy_data e).trace, op.is_set_stale = false := by
  have hc : ∀ op ∈ compile_ops backend_name timing_detail, op.is_set_stale = false := by
    intro op hop
    simp only [compile_ops, List.mem_cons, List.mem_singleton, List.not_mem_nil, or_false] at hop
    rcases hop with rfl | rfl | rfl | rfl | rfl <;> rfl
  intro op hop
  cases herr : (make_buffer_sets f e).error with
  | some msg =>
    simp only [run_benchmark_double_buffered, herr, List.mem_append, List.mem_singleton] at hop
    rcases hop with (hop | rfl) | hop
    · exact hc op hop
    · rfl
    · exact alloc_not_set_stale op (make_buffer_sets_alloc f e op hop)
  | none =>
    rw [pipelined_trace f backend_name iterations timing_detail w copy_data e herr] at hop
    simp only [List.mem_append, List.mem_singleton, List.mem_cons, List.mem_flatMap,
      List.not_mem_nil, or_false] at hop
    rcases hop with (((((hop | rfl) | hop) | hop) | ⟨j, -, hop⟩) | hop) | rfl | rfl | rfl
    · exact hc op hop
    · rfl
    · exact alloc_not_set_stale op (make_buffer_sets_alloc f e op hop)
    · exact tagged_not_set_stale op _ (begin_write_all_tag _ _ _ op hop).1
    · exact pipelined_iteration_ops_no_set_stale _ _ _ _ _ _ _ op hop
    · exact tagged_not_set_stale op _ (begin_read_all_tag _ _ _ op hop).1
    · rfl
    · rfl
    · rfl

/-- C15: two runs of `run_benchmark_double_buffered` on graphs with the same results and
the same parameter element types and shapes, differing at most in the cacheable flags
and in `copy_data`, have the same outcome, in particular the same trace of operations;
no operation of the trace is a `set_stale`; and in a run that reaches the loop every
iteration `i` issues, between its `begin_execute` and the wait on its future, one
`begin_write` per parameter, on the argument tensors in parameter order. -/
theorem pipelined_ignores_copy_data_and_cacheable (f g : Function) (backend_name : String)
    (iterations : Nat) (timing_detail : Bool) (warmup_iterations : Int)
    (copy_data copy_data2 : Bool) (e : Engine)
    (hp : g.parameters.map (fun p => (p.element_type, p.shape)) =
      f.parameters.map (fun p => (p.element_type, p.shape)))
    (hr : g.results = f.results) :
    run_benchmark_double_buffered g backend_name iterations timing_detail warmup_iterations
        copy_data2 e =
      run_benchmark_double_buffered f backend_name iterations timing_detail warmup_iterations
        copy_data e ∧
    (∀ op ∈ (run_benchmark_double_buffered f backend_name iterations timing_detail
      warmup_iterations copy_data e).trace, op.is_set_stale = false) ∧
    ((run_benchmark_double_buffered f backend_name iterations timing_detail
        warmup_iterations copy_data e).error = none →
      ∀ i : Nat, i < loop_bound iterations warmup_iterations →
        ∃ (pre mid writes post : List Op),
          (run_benchmark_double_buffered f backend_name iterations timing_detail
            warmup_iterations copy_data e).trace =
            pre ++ Op.begin_execute ((make_buffer_sets f e).results_set.getD 0 [])
              ((make_buffer_sets f e).args_set.getD 0 []) ::
              (mid ++ writes ++ Op.future_get :: post) ∧
          pre.countP Op.is_begin_execute = i ∧
          (∀ op ∈ mid, op.is_begin_read = true) ∧
          writes.length = f.parameters.length ∧
          (∀ op ∈ writes, op.is_begin_write = true) ∧
          writes.map Op.transfer_tensor =
            ((make_buffer_sets f e).args_set.getD 0 []).map some) := by
  refine ⟨?_, pipelined_no_set_stale f backend_name iterations timing_detail
    warmup_iterations copy_data e, ?_⟩
  · simp only [run_benchmark_double_buffered, make_buffer_sets_congr f g e hp hr]
  · intro herr i hi
    rw [pipelined_error] at herr
    have hlen := make_buffer_sets_length f e herr
    have hcount := pipelined_setup_count f backend_name timing_detail warmup_iterations e i
    rw [pipelined_trace_at f backend_name iterations timing_detail warmup_iterations
      copy_data e herr i hi]
    generalize (make_buffer_sets f e).args_set.getD 0 [] = A at hlen hcount ⊢
    generalize (make_buffer_sets f e).args_data_set.getD 0 [] = AD at hlen hcount ⊢
    generalize (make_buffer_sets f e).results_set.getD 0 [] = R at hcount ⊢
    generalize (make_buffer_sets f e).results_data_set.getD 0 [] = RD at hcount ⊢
    generalize compile_ops backend_name timing_detail ++ [Op.set_denormals_flush_to_zero] ++
      (make_buffer_sets f e).ops ++ begin_write_all A AD 0 ++
      (List.range i).flatMap (fun j => pipelined_iteration_ops warmup_iterations A AD R RD j
        (j % 2)) = P at hcount ⊢
    have hww : A.length = AD.length := by rw [hlen.1, hlen.2]
    have htargets := begin_write_all_targets A AD (next_buffer (i % 2)) hww
    refine ⟨P ++ (if i = size_t_of_int warmup_iterations then [Op.t1_start] else []),
      (if 0 < i then begin_read_all R RD (previous_buffer (i % 2)) else []),
      begin_write_all A AD (next_buffer (i % 2)),
      (List.range (loop_bound iterations warmup_iterations - i - 1)).flatMap
          (fun j => pipelined_iteration_ops warmup_iterations A AD R RD (i + 1 + j)
            ((i + 1 + j) % 2)) ++
        begin_read_all R RD ((loop_bound iterations warmup_iterations + 1) % 2) ++
        [Op.t1_stop, Op.print_ms_per_iteration iterations, Op.get_performance_data],
      ?_, ?_, ?_, ?_, begin_write_all_kind _ _ _, htargets⟩
    · simp [pipelined_iteration_ops, List.append_assoc]
    · have hs : (if i = size_t_of_int warmup_iterations then [Op.t1_start] else []).countP
          Op.is_begin_execute = 0 := by
        split <;> rfl
      rw [List.countP_append, hcount, hs]
      rfl
    · intro op hop
      split at hop
      · exact begin_read_all_kind _ _ _ op hop
      · simp at hop
    · have := congrArg List.length htargets
      simpa [hlen.1] using this

/-- Witness of `pipelined_ignores_copy_data_and_cacheable`: the one-parameter graph with
the parameter cacheable and `copy_data = false` against the same graph with the
parameter not cacheable and `copy_data = true`. -/
theorem pipelined_ignores_copy_data_and_cacheable_witness :
    (identity_graph true).parameters.map (fun p => (p.element_type, p.shape)) =
      (identity_graph false).parameters.map (fun p => (p.element_type, p.shape)) ∧
    (identity_graph true).results = (identity_graph false).results ∧
    (run_benchmark_double_buffered (identity_graph true) "CPU" 2 false 1 false
        (Engine.const 0)).trace =
      (run_benchmark_double_buffered (identity_graph false) "CPU" 2 false 1 true
        (Engine.const 0)).trace ∧
    (∀ op ∈ (run_benchmark_double_buffered (identity_graph false) "CPU" 2 false 1 true
      (Engine.const 0)).trace, op.is_set_stale = false) :=
  ⟨rfl, rfl,
    congrArg PipelinedRun.trace
      (pipelined_ignores_copy_data_and_cacheable (identity_graph false) (identity_graph true)
        "CPU" 2 false 1 true false (Engine.const 0) rfl rfl).1,
    (pipelined_ignores_copy_data_and_cacheable (identity_graph false) (identity_graph true)
      "CPU" 2 false 1 true false (Engine.const 0) rfl rfl).2.1⟩

/-! ## The single-buffer runner: what one iteration performs -/

theorem write_stale_args_ops {σ : Type} (B : Backend σ) (args : List Tensor)
    (arg_data : List HostTensor) (s : σ) :
    (write_stale_args B args arg_data s).1 =
      (List.zip args (List.zip arg_data (stale_readings B args arg_data s))).flatMap
        (fun x => Op.get_stale x.1 x.2.2 ::
          (if x.2.2 = true then [Op.write x.1 x.2.1.buffer x.2.1.byte_size] else [])) := by
  induction args generalizing arg_data s with
  | nil => simp [write_stale_args]
  | cons a rest ih =>
    cases arg_data with
    | nil => simp [write_stale_args]
    | cons d ds =>
      cases h : B.get_stale a s <;>
        simp [write_stale_args, stale_readings, h, ih]

theorem read_results_ops {σ : Type} (B : Backend σ) (results : List Tensor)
    (result_data : List HostTensor) (s : σ) :
    (read_results B results result_data s).1 =
      (List.zip results result_data).map (fun x => Op.read x.1 x.2.byte_size) := by
  induction results generalizing result_data s with
  | nil => simp [read_results]
  | cons a rest ih =>
    cases result_data with
    | nil => simp [read_results]
    | cons d ds => simp [read_results, ih]

theorem read_results_keeps_sizes {σ : Type} (B : Backend σ) (results : List Tensor)
    (result_data : List HostTensor) (s : σ) (hlen : results.length = result_data.length) :
    (read_results B results result_data s).2.1.map
        (fun h => (h.element_type, h.shape)) =
      result_data.map (fun h => (h.element_type, h.shape)) := by
  induction results generalizing result_data s with
  | nil =>
    cases result_data with
    | nil => simp [read_results]
    | cons d ds => simp at hlen
  | cons a rest ih =>
    cases result_data with
    | nil => simp at hlen
    | cons d ds =>
      simp only [List.length_cons, Nat.add_right_cancel_iff] at hlen
      simp [read_results, ih ds _ hlen]

theorem make_args_length {σ : Type} (B : Backend σ) (ps : List Parameter) (index : Nat)
    (s : σ) (e : Engine) (herr : (make_args B ps index s e).error = none) :
    (make_args B ps index s e).args.length = ps.length ∧
    (make_args B ps index s e).arg_data.length = ps.length := by
  induction ps generalizing index s e with
  | nil => exact ⟨rfl, rfl⟩
  | cons p rest ih =>
    cases hr : (random_init (HostTensor.make p.element_type p.shape) e).error with
    | some msg => simp [make_args, hr] at herr
    | none =>
      simp only [make_args, hr] at herr ⊢
      have := ih _ _ _ herr
      simp [this.1, this.2]

theorem make_results_length {σ : Type} (B : Backend σ) (rs : List ResultNode) (index : Nat)
    (s : σ) :
    (make_results B rs index s).results.length = rs.length ∧
    (make_results B rs index s).result_data.length = rs.length := by
  induction rs generalizing index s with
  | nil => exact ⟨rfl, rfl⟩
  | cons r rest ih =>
    have := ih (index + 1) (B.create_tensor (Tensor.result 0 index) r.element_type r.shape s)
    simp [make_results, this.1, this.2]

theorem run_benchmark_setup_lengths {σ : Type} (B : Backend σ) (f : Function)
    (backend_name : String) (timing_detail : Bool) (s : σ) (e : Engine)
    (herr : (run_benchmark_setup B f backend_name timing_detail s e).error = none) :
    (run_benchmark_setup B f backend_name timing_detail s e).args.length =
      f.parameters.length ∧
    (run_benchmark_setup B f backend_name timing_detail s e).arg_data.length =
      f.parameters.length ∧
    (run_benchmark_setup B f backend_name timing_detail s e).results.length =
      f.results.length ∧
    (run_benchmark_setup B f backend_name timing_detail s e).result_data.length =
      f.results.length := by
  cases ha : (make_args B f.parameters 0 s e).error with
  | some msg => simp [run_benchmark_setup, ha] at herr
  | none =>
    have h1 := make_args_length B f.parameters 0 s e ha
    have h2 := make_results_length B f.results 0 (make_args B f.parameters 0 s e).backend
    simp only [run_benchmark_setup, ha]
    exact ⟨h1.1, h1.2, h2.1, h2.2⟩

theorem stale_readings_length {σ : Type} (B : Backend σ) (args : List Tensor)
    (arg_data : List HostTensor) (s : σ) (hlen : args.length = arg_data.length) :
    (stale_readings B args arg_data s).length = args.length := by
  induction args generalizing arg_data s with
  | nil => simp [stale_readings]
  | cons a rest ih =>
    cases arg_data with
    | nil => simp at hlen
    | cons d ds =>
      simp only [List.length_cons, Nat.add_right_cancel_iff] at hlen
      simp [stale_readings, ih ds _ hlen]

theorem read_results_length {σ : Type} (B : Backend σ) (results : List Tensor)
    (result_data : List HostTensor) (s : σ) (hlen : results.length = result_data.length) :
    (read_results B results result_data s).2.1.length = result_data.length := by
  have := congrArg List.length (read_results_keeps_sizes B results result_data s hlen)
  simpa using this

theorem iterations_done_result_length {σ : Type} (B : Backend σ) (cd : Bool) (w : Int)
    (args : List Tensor) (arg_data : List HostTensor) (results : List Tensor)
    (result_data : List HostTensor) (s : σ) (hlen : results.length = result_data.length)
    (k : Nat) :
    (iterations_done B cd w args arg_data results result_data s k).result_data.length =
      result_data.length := by
  induction k with
  | zero => rfl
  | succ n ih =>
    rw [iterations_done_succ]
    cases cd
    · simpa [iteration] using ih
    · simp only [iteration, if_true]
      rw [read_results_length B results _ _ (by rw [ih]; exact hlen), ih]

/-- C13: in a run of `run_benchmark` that reaches the loop, the trace is the setup, the
operations of the loop, then `t1_stop`, the report and `get_performance_data`; and pass
`i` of the loop, for every `i` below the loop bound, adds to the operations of the loop,
in this order: `t1_start` if `i` is `warmup_iterations`; if `copy_data` is set, for
each of the parameters in order the reading of its staleness flag, followed by one
`write` of its host tensor's buffer exactly when the flag reads true; one `call` with
the full result and argument vectors; and if `copy_data` is set one `read` of its host
tensor's byte size for each of the results in order.  Without `copy_data` the pass adds
the `call` alone (after the `t1_start`, if any). -/
theorem run_benchmark_iteration_order {σ : Type} (B : Backend σ) (f : Function)
    (backend_name : String) (iterations : Nat) (timing_detail : Bool)
    (warmup_iterations : Int) (copy_data : Bool) (s : σ) (e : Engine)
    (herr : (run_benchmark B f backend_name iterations timing_detail warmup_iterations
      copy_data s e).error = none) :
    (run_benchmark B f backend_name iterations timing_detail warmup_iterations
      copy_data s e).trace =
        (run_benchmark_setup B f backend_name timing_detail s e).ops ++
          (iterations_done B copy_data warmup_iterations
            (run_benchmark_setup B f backend_name timing_detail s e).args
            (run_benchmark_setup B f backend_name timing_detail s e).arg_data
            (run_benchmark_setup B f backend_name timing_detail s e).results
            (run_benchmark_setup B f backend_name timing_detail s e).result_data
            (run_benchmark_setup B f backend_name timing_detail s e).backend
            (loop_bound iterations warmup_iterations)).ops ++
          [Op.t1_stop, Op.print_ms_per_iteration iterations, Op.get_performance_data] ∧
    (run_benchmark_setup B f backend_name timing_detail s e).args.length =
      f.parameters.length ∧
    (run_benchmark_setup B f backend_name timing_detail s e).arg_data.length =
      f.parameters.length ∧
    (run_benchmark_setup B f backend_name timing_detail s e).results.length =
      f.results.length ∧
    (iterations_done B copy_data warmup_iterations
      (run_benchmark_setup B f backend_name timing_detail s e).args
      (run_benchmark_setup B f backend_name timing_detail s e).arg_data
      (run_benchmark_setup B f backend_name timing_detail s e).results
      (run_benchmark_setup B f backend_name timing_detail s e).result_data
      (run_benchmark_setup B f backend_name timing_detail s e).backend 0).ops = [] ∧
    ∀ i : Nat, i < loop_bound iterations warmup_iterations →
      (iterations_done B copy_data warmup_iterations
        (run_benchmark_setup B f backend_name timing_detail s e).args
        (run_benchmark_setup B f backend_name timing_detail s e).arg_data
        (run_benchmark_setup B f backend_name timing_detail s e).results
        (run_benchmark_setup B f backend_name timing_detail s e).result_data
        (run_benchmark_setup B f backend_name timing_detail s e).backend
        i).result_data.length = f.results.length ∧
      (stale_readings B (run_benchmark_setup B f backend_name timing_detail s e).args
        (run_benchmark_setup B f backend_name timing_detail s e).arg_data
        (iterations_done B copy_data warmup_iterations
          (run_benchmark_setup B f backend_name timing_detail s e).args
          (run_benchmark_setup B f backend_name timing_detail s e).arg_data
          (run_benchmark_setup B f backend_name timing_detail s e).results
          (run_benchmark_setup B f backend_name timing_detail s e).result_data
          (run_benchmark_setup B f backend_name timing_detail s e).backend
          i).backend).length = f.parameters.length ∧
      (iterations_done B copy_data warmup_iterations
        (run_benchmark_setup B f backend_name timing_detail s e).args
        (run_benchmark_setup B f backend_name timing_detail s e).arg_data
        (run_benchmark_setup B f backend_name timing_detail s e).results
        (run_benchmark_setup B f backend_name timing_detail s e).result_data
        (run_benchmark_setup B f backend_name timing_detail s e).backend (i + 1)).ops =
      (iterations_done B copy_data warmup_iterations
        (run_benchmark_setup B f backend_name timing_detail s e).args
        (run_benchmark_setup B f backend_name timing_detail s e).arg_data
        (run_benchmark_setup B f backend_name timing_detail s e).results
        (run_benchmark_setup B f backend_name timing_detail s e).result_data
        (run_benchmark_setup B f backend_name timing_detail s e).backend i).ops ++
      ((if i = size_t_of_int warmup_iterations then [Op.t1_start] else []) ++
        (if copy_data = true then
          (List.zip (run_benchmark_setup B f backend_name timing_detail s e).args
            (List.zip (run_benchmark_setup B f backend_name timing_detail s e).arg_data
              (stale_readings B (run_benchmark_setup B f backend_name timing_detail s e).args
                (run_benchmark_setup B f backend_name timing_detail s e).arg_data
                (iterations_done B copy_data warmup_iterations
                  (run_benchmark_setup B f backend_name timing_detail s e).args
                  (run_benchmark_setup B f backend_name timing_detail s e).arg_data
                  (run_benchmark_setup B f backend_name timing_detail s e).results
                  (run_benchmark_setup B f backend_name timing_detail s e).result_data
                  (run_benchmark_setup B f backend_name timing_detail s e).backend
                  i).backend))).flatMap
            (fun x => Op.get_stale x.1 x.2.2 ::
              (if x.2.2 = true then [Op.write x.1 x.2.1.buffer x.2.1.byte_size] else []))
          else []) ++
        [Op.call (run_benchmark_setup B f backend_name timing_detail s e).results
          (run_benchmark_setup B f backend_name timing_detail s e).args] ++
        (if copy_data = true then
          (List.zip (run_benchmark_setup B f backend_name timing_detail s e).results
            (iterations_done B copy_data warmup_iterations
              (run_benchmark_setup B f backend_name timing_detail s e).args
              (run_benchmark_setup B f backend_name timing_detail s e).arg_data
              (run_benchmark_setup B f backend_name timing_detail s e).results
              (run_benchmark_setup B f backend_name timing_detail s e).result_data
              (run_benchmark_setup B f backend_name timing_detail s e).backend
              i).result_data).map (fun x => Op.read x.1 x.2.byte_size)
          else [])) := by
  rw [run_benchmark_error] at herr
  obtain ⟨h1, h2, h3, h4⟩ := run_benchmark_setup_lengths B f backend_name timing_detail s e herr
  refine ⟨run_benchmark_trace B f backend_name iterations timing_detail warmup_iterations
    copy_data s e herr, h1, h2, h3, rfl, fun i _ => ⟨?_, ?_, ?_⟩⟩
  · rw [iterations_done_result_length B copy_data warmup_iterations _ _ _ _ _
      (by rw [h3, h4]), h4]
  · rw [stale_readings_length B _ _ _ (by rw [h1, h2]), h1]
  · rw [iterations_done_succ]
    cases copy_data
    · simp [iteration]
    · simp [iteration, write_stale_args_ops, read_results_ops]

/-- Witness of `run_benchmark_iteration_order`: the one-parameter graph on the storing
backend, two measured iterations after one warm-up iteration, `copy_data` set. -/
theorem run_benchmark_iteration_order_witness :
    (run_benchmark store_backend (identity_graph false) "CPU" 2 false 1 true Store.init
      (Engine.const 0)).error = none ∧
    (run_benchmark store_backend (identity_graph false) "CPU" 2 false 1 true Store.init
      (Engine.const 0)).trace =
        (run_benchmark_setup store_backend (identity_graph false) "CPU" false Store.init
          (Engine.const 0)).ops ++
          (iterations_done store_backend true 1
            (run_benchmark_setup store_backend (identity_graph false) "CPU" false Store.init
              (Engine.const 0)).args
            (run_benchmark_setup store_backend (identity_graph false) "CPU" false Store.init
              (Engine.const 0)).arg_data
            (run_benchmark_setup store_backend (identity_graph false) "CPU" false Store.init
              (Engine.const 0)).results
            (run_benchmark_setup store_backend (identity_graph false) "CPU" false Store.init
              (Engine.const 0)).result_data
            (run_benchmark_setup store_backend (identity_graph false) "CPU" false Store.init
              (Engine.const 0)).backend
            (loop_bound 2 1)).ops ++
          [Op.t1_stop, Op.print_ms_per_iteration 2, Op.get_performance_data] :=
  ⟨by decide,
    (run_benchmark_iteration_order store_backend (identity_graph false) "CPU" 2 false 1 true
      Store.init (Engine.const 0) (by decide)).1⟩

/-! ## The pipelined runner: timing and order per parity -/

theorem pipelined_iteration_ops_shape (w : Int) (args : List Tensor)
    (args_data : List HostTensor) (results : List Tensor) (results_data : List HostTensor)
    (i : Nat) :
    pipelined_iteration_ops w args args_data results results_data i (i % 2) =
      (if i = size_t_of_int w then [Op.t1_start] else []) ++
        Op.begin_execute results args ::
          (pipelined_transfers args args_data results results_data i ++ [Op.future_get]) := by
  simp [pipelined_iteration_ops, pipelined_transfers, previous_buffer_mod, next_buffer_mod]

theorem tagged_plain (op : Op) (b : Nat) (h : op.parity_tag = some b) :
    op.is_t1 = false ∧ op.is_begin_execute = false ∧ op.is_future_get = false := by
  cases op <;> simp_all [Op.parity_tag, Op.is_t1, Op.is_begin_execute, Op.is_future_get]

theorem pipelined_transfers_tagged (args : List Tensor) (args_data : List HostTensor)
    (results : List Tensor) (results_data : List HostTensor) (i : Nat) :
    ∀ op ∈ pipelined_transfers args args_data results results_data i,
      op.parity_tag = some ((i + 1) % 2) := by
  intro op hop
  rcases List.mem_append.1 hop with h | h
  · split at h
    · exact (begin_read_all_tag _ _ _ op h).1
    · simp at h
  · exact (begin_write_all_tag _ _ _ op h).1

theorem tagged_counts (l : List Op) (h : ∀ op ∈ l, ∃ b, op.parity_tag = some b) :
    (∀ op ∈ l, op.is_t1 = false) ∧ l.countP Op.is_begin_execute = 0 ∧
      l.countP Op.is_future_get = 0 := by
  refine ⟨fun op hop => ?_, List.countP_eq_zero.2 (fun op hop => ?_),
    List.countP_eq_zero.2 (fun op hop => ?_)⟩
  · obtain ⟨b, hb⟩ := h op hop
    exact (tagged_plain op b hb).1
  · obtain ⟨b, hb⟩ := h op hop
    simp [(tagged_plain op b hb).2.1]
  · obtain ⟨b, hb⟩ := h op hop
    simp [(tagged_plain op b hb).2.2]

theorem flatMap_range_count (p : Op → Bool) (F : Nat → List Op) (c : Nat)
    (h : ∀ j, (F j).countP p = c) (m : Nat) :
    ((List.range m).flatMap F).countP p = m * c := by
  induction m with
  | zero => simp
  | succ n ih =>
    rw [List.range_succ, List.flatMap_append, List.countP_append, ih]
    simp [h, Nat.succ_mul]

theorem pipelined_iteration_counts (w : Int) (args : List Tensor)
    (args_data : List HostTensor) (results : List Tensor) (results_data : List HostTensor)
    (i : Nat) :
    (pipelined_iteration_ops w args args_data results results_data i (i % 2)).countP
      Op.is_begin_execute = 1 ∧
    (pipelined_iteration_ops w args args_data results results_data i (i % 2)).countP
      Op.is_future_get = 1 ∧
    (i ≠ size_t_of_int w →
      ∀ op ∈ pipelined_iteration_ops w args args_data results results_data i (i % 2),
        op.is_t1 = false) := by
  obtain ⟨ht1, ht2, ht3⟩ := tagged_counts _
    (fun op hop => ⟨_, pipelined_transfers_tagged args args_data results results_data i op hop⟩)
  have hs1 : (if i = size_t_of_int w then [Op.t1_start] else []).countP
      Op.is_begin_execute = 0 := by
    split <;> rfl
  have hs2 : (if i = size_t_of_int w then [Op.t1_start] else []).countP
      Op.is_future_get = 0 := by
    split <;> rfl
  rw [pipelined_iteration_ops_shape]
  refine ⟨?_, ?_, fun hne op hop => ?_⟩
  · simp only [List.countP_append, List.countP_cons, hs1, ht2]
    rfl
  · simp only [List.countP_append, List.countP_cons, hs2, ht3]
    rfl
  · simp only [if_neg hne, List.nil_append, List.mem_cons, List.mem_append,
      List.mem_singleton, List.not_mem_nil, or_false] at hop
    rcases hop with rfl | hop | rfl
    · rfl
    · exact ht1 op hop
    · rfl

theorem pipelined_setup_no_t1 (f : Function) (backend_name : String) (timing_detail : Bool)
    (e : Engine) (args : List Tensor) (args_data : List HostTensor) (b : Nat) :
    ∀ op ∈ compile_ops backend_name timing_detail ++ [Op.set_denormals_flush_to_zero] ++
      (make_buffer_sets f e).ops ++ begin_write_all args args_data b, op.is_t1 = false := by
  intro op hop
  simp only [List.mem_append, List.mem_singleton] at hop
  rcases hop with ((hop | rfl) | hop) | hop
  · simp only [compile_ops, List.mem_cons, List.mem_singleton, List.not_mem_nil, or_false] at hop
    rcases hop with rfl | rfl | rfl | rfl | rfl <;> rfl
  · rfl
  · have := make_buffer_sets_alloc f e op hop
    cases op <;> simp_all [Op.is_alloc, Op.is_t1]
  · exact (tagged_plain op _ (begin_write_all_tag _ _ _ op hop).1).1

theorem pipelined_warmup_part (w : Int) (args : List Tensor) (args_data : List HostTensor)
    (results : List Tensor) (results_data : List HostTensor) (k : Nat)
    (hk : k ≤ size_t_of_int w) :
    ((List.range k).flatMap (fun j =>
      pipelined_iteration_ops w args args_data results results_data j (j % 2))).countP
        Op.is_begin_execute = k ∧
    ((List.range k).flatMap (fun j =>
      pipelined_iteration_ops w args args_data results results_data j (j % 2))).countP
        Op.is_future_get = k ∧
    ∀ op ∈ (List.range k).flatMap (fun j =>
      pipelined_iteration_ops w args args_data results results_data j (j % 2)),
        op.is_t1 = false := by
  refine ⟨pipelined_prefix_count w args args_data results results_data k, ?_, ?_⟩
  · rw [flatMap_range_count Op.is_future_get _ 1
      (fun j => (pipelined_iteration_counts w args args_data results results_data j).2.1)]
    omega
  · intro op hop
    obtain ⟨j, hj, hop⟩ := List.mem_flatMap.1 hop
    have hjlt : j < k := List.mem_range.1 hj
    exact (pipelined_iteration_counts w args args_data results results_data j).2.2
      (by omega) op hop

theorem pipelined_later_part (w : Int) (args : List Tensor) (args_data : List HostTensor)
    (results : List Tensor) (results_data : List HostTensor) (base m : Nat)
    (hbase : size_t_of_int w < base) :
    ((List.range m).flatMap (fun j =>
      pipelined_iteration_ops w args args_data results results_data (base + j)
        ((base + j) % 2))).countP Op.is_begin_execute = m ∧
    ((List.range m).flatMap (fun j =>
      pipelined_iteration_ops w args args_data results results_data (base + j)
        ((base + j) % 2))).countP Op.is_future_get = m ∧
    ∀ op ∈ (List.range m).flatMap (fun j =>
      pipelined_iteration_ops w args args_data results results_data (base + j)
        ((base + j) % 2)), op.is_t1 = false := by
  refine ⟨?_, ?_, ?_⟩
  · rw [flatMap_range_count Op.is_begin_execute _ 1
      (fun j => (pipelined_iteration_counts w args args_data results results_data
        (base + j)).1)]
    omega
  · rw [flatMap_range_count Op.is_future_get _ 1
      (fun j => (pipelined_iteration_counts w args args_data results results_data
        (base + j)).2.1)]
    omega
  · intro op hop
    obtain ⟨j, -, hop⟩ := List.mem_flatMap.1 hop
    exact (pipelined_iteration_counts w args args_data results results_data (base + j)).2.2
      (by omega) op hop

theorem begin_read_all_length (results : List Tensor) (results_data : List HostTensor)
    (b : Nat) (hlen : results.length = results_data.length) :
    (begin_read_all results results_data b).length = results.length := by
  induction results generalizing results_data with
  | nil => simp [begin_read_all]
  | cons a rest ih =>
    cases results_data with
    | nil => simp at hlen
    | cons d ds =>
      simp only [List.length_cons, Nat.add_right_cancel_iff] at hlen
      simp [begin_read_all, ih ds hlen]

theorem make_buffer_results_length (set : Nat) (rs : List ResultNode) (index : Nat) :
    (make_buffer_results set rs index).2.1.length = rs.length ∧
    (make_buffer_results set rs index).2.2.length = rs.length := by
  induction rs generalizing index with
  | nil => exact ⟨rfl, rfl⟩
  | cons r rest ih =>
    have := ih (index + 1)
    simp [make_buffer_results, this.1, this.2]

theorem make_buffer_sets_results_length (f : Function) (e : Engine)
    (herr : (make_buffer_sets f e).error = none) :
    ((make_buffer_sets f e).results_set.getD 0 []).length = f.results.length ∧
    ((make_buffer_sets f e).results_data_set.getD 0 []).length = f.results.length := by
  cases h0 : (make_buffer_args 0 f.parameters 0 e).error with
  | some msg => simp [make_buffer_sets, h0] at herr
  | none =>
    have hlen := make_buffer_results_length 0 f.results 0
    cases h1 : (make_buffer_args 1 f.parameters 0
        (make_buffer_args 0 f.parameters 0 e).engine).error with
    | some msg => simp [make_buffer_sets, h0, h1] at herr
    | none =>
      simp only [make_buffer_sets, h0, h1]
      exact hlen

/-- C11 fails in two ways.  On the one-parameter graph with one iteration and no
warm-up the trace ends with the wait on the last execute, then the drain `begin_read`
on the result tensor, and only then `t1_stop`: a transfer is issued between the last
awaited execute and the timer stop.  And with `iterations = 2 ^ 64 - 1` and
`warmup_iterations = 1` the loop bound wraps to 0: `t1` is never started and nothing is
executed. -/
theorem pipelined_drain_inside_timer :
    (run_benchmark_double_buffered (identity_graph false) "CPU" 1 false 0 true
      (Engine.const 0)).error = none ∧
    (run_benchmark_double_buffered (identity_graph false) "CPU" 1 false 0 true
      (Engine.const 0)).trace.drop 16 =
        [Op.future_get, Op.begin_read (Tensor.result 0 0) 8 0, Op.t1_stop,
          Op.print_ms_per_iteration 1, Op.get_performance_data] ∧
    ((run_benchmark_double_buffered (identity_graph false) "CPU" 1 false 0 true
      (Engine.const 0)).trace.take 16).countP Op.is_future_get = 0 ∧
    (run_benchmark_double_buffered (identity_graph false) "CPU" (2 ^ 64 - 1) false 1 true
      (Engine.const 0)).error = none ∧
    Op.t1_start ∉ (run_benchmark_double_buffered (identity_graph false) "CPU" (2 ^ 64 - 1)
      false 1 true (Engine.const 0)).trace ∧
    (run_benchmark_double_buffered (identity_graph false) "CPU" (2 ^ 64 - 1) false 1 true
      (Engine.const 0)).trace.countP Op.is_begin_execute = 0 := by
  decide

/-- C11 as amended: in a run of `run_benchmark_double_buffered` with `iterations > 0`,
`warmup_iterations >= 0` and `iterations + warmup_iterations < 2 ^ 64` that reaches the
loop, the trace is: compile, `set_denormals_flush_to_zero`, buffer allocation, the
priming writes and the `warmup_iterations` warm-up iterations (`warm`), none of them a
start or stop of `t1`; then `t1_start`, immediately followed by the `begin_execute` of
iteration `warmup_iterations`; then `timed`, holding the other `iterations - 1` executes
and waits; then the wait on the last execute; then the drain, one `begin_read` per
result and nothing else; then `t1_stop`, the report and `get_performance_data`. -/
theorem pipelined_timed_window (f : Function) (backend_name : String) (iterations : Nat)
    (timing_detail : Bool) (warmup_iterations : Int) (copy_data : Bool) (e : Engine)
    (hit : 0 < iterations) (hw : 0 ≤ warmup_iterations)
    (hbound : (iterations : Int) + warmup_iterations < 2 ^ 64)
    (herr : (run_benchmark_double_buffered f backend_name iterations timing_detail
      warmup_iterations copy_data e).error = none) :
    ∃ warm timed : List Op,
      (run_benchmark_double_buffered f backend_name iterations timing_detail
        warmup_iterations copy_data e).trace =
          (compile_ops backend_name timing_detail ++ [Op.set_denormals_flush_to_zero] ++
            (make_buffer_sets f e).ops ++
            begin_write_all ((make_buffer_sets f e).args_set.getD 0 [])
              ((make_buffer_sets f e).args_data_set.getD 0 []) 0 ++ warm) ++
          Op.t1_start ::
            Op.begin_execute ((make_buffer_sets f e).results_set.getD 0 [])
              ((make_buffer_sets f e).args_set.getD 0 []) ::
              (timed ++ Op.future_get ::
                (begin_read_all ((make_buffer_sets f e).results_set.getD 0 [])
                    ((make_buffer_sets f e).results_data_set.getD 0 [])
                    ((loop_bound iterations warmup_iterations + 1) % 2) ++
                  [Op.t1_stop, Op.print_ms_per_iteration iterations,
                    Op.get_performance_data])) ∧
      (∀ op ∈ compile_ops backend_name timing_detail ++ [Op.set_denormals_flush_to_zero] ++
          (make_buffer_sets f e).ops ++
          begin_write_all ((make_buffer_sets f e).args_set.getD 0 [])
            ((make_buffer_sets f e).args_data_set.getD 0 []) 0 ++ warm,
        op.is_t1 = false) ∧
      warm.countP Op.is_begin_execute = warmup_iterations.toNat ∧
      warm.countP Op.is_future_get = warmup_iterations.toNat ∧
      (∀ op ∈ timed, op.is_t1 = false) ∧
      timed.countP Op.is_begin_execute = iterations - 1 ∧
      timed.countP Op.is_future_get = iterations - 1 ∧
      (∀ op ∈ begin_read_all ((make_buffer_sets f e).results_set.getD 0 [])
          ((make_buffer_sets f e).results_data_set.getD 0 [])
          ((loop_bound iterations warmup_iterations + 1) % 2), op.is_begin_read = true) ∧
      (begin_read_all ((make_buffer_sets f e).results_set.getD 0 [])
        ((make_buffer_sets f e).results_data_set.getD 0 [])
        ((loop_bound iterations warmup_iterations + 1) % 2)).length = f.results.length := by
  rw [pipelined_error] at herr
  have hw2 : size_t_of_int warmup_iterations = warmup_iterations.toNat :=
    size_t_of_int_nonneg _ hw (by omega)
  have hlb := loop_bound_no_overflow iterations warmup_iterations hw hbound
  have hrl := make_buffer_sets_results_length f e herr
  have hS := pipelined_setup_no_t1 f backend_name timing_detail e
    ((make_buffer_sets f e).args_set.getD 0 []) ((make_buffer_sets f e).args_data_set.getD 0 [])
    0
  rw [pipelined_trace f backend_name iterations timing_detail warmup_iterations copy_data e herr]
  generalize (make_buffer_sets f e).args_set.getD 0 [] = A at hS ⊢
  generalize (make_buffer_sets f e).args_data_set.getD 0 [] = AD at hS ⊢
  generalize (make_buffer_sets f e).results_set.getD 0 [] = R at hrl ⊢
  generalize (make_buffer_sets f e).results_data_set.getD 0 [] = RD at hrl ⊢
  generalize compile_ops backend_name timing_detail ++ [Op.set_denormals_flush_to_zero] ++
    (make_buffer_sets f e).ops ++ begin_write_all A AD 0 = S at hS ⊢
  generalize hn : loop_bound iterations warmup_iterations = n at hlb ⊢
  generalize hwn : size_t_of_int warmup_iterations = w0 at hw2
  have hdrain1 := begin_read_all_kind R RD ((n + 1) % 2)
  have hdrain2 : (begin_read_all R RD ((n + 1) % 2)).length = f.results.length := by
    rw [begin_read_all_length R RD _ (by rw [hrl.1, hrl.2]), hrl.1]
  obtain ⟨hwarm1, hwarm2, hwarm3⟩ := pipelined_warmup_part warmup_iterations A AD R RD w0
    (by rw [hwn])
  obtain ⟨htr1, htr2, htr3⟩ := tagged_counts _
    (fun op hop => ⟨_, pipelined_transfers_tagged A AD R RD w0 op hop⟩)
  have hpre : ∀ op ∈ S ++ (List.range w0).flatMap (fun j =>
      pipelined_iteration_ops warmup_iterations A AD R RD j (j % 2)), op.is_t1 = false := by
    intro op hop
    rcases List.mem_append.1 hop with hop | hop
    · exact hS op hop
    · exact hwarm3 op hop
  have hstart : pipelined_iteration_ops warmup_iterations A AD R RD w0 (w0 % 2) =
      Op.t1_start :: Op.begin_execute R A ::
        (pipelined_transfers A AD R RD w0 ++ [Op.future_get]) := by
    rw [pipelined_iteration_ops_shape, if_pos hwn.symm]
    rfl
  by_cases hone : iterations = 1
  · have hnw : n = w0 + 1 := by omega
    refine ⟨(List.range w0).flatMap (fun j =>
        pipelined_iteration_ops warmup_iterations A AD R RD j (j % 2)),
      pipelined_transfers A AD R RD w0, ?_, hpre, ?_, ?_, htr1, ?_, ?_, hdrain1, hdrain2⟩
    · rw [hnw, List.range_succ, List.flatMap_append]
      simp [hstart, List.append_assoc]
    · rw [hwarm1, hw2]
    · rw [hwarm2, hw2]
    · rw [htr2]
      omega
    · rw [htr3]
      omega
  · have hlast : n - 1 ≠ size_t_of_int warmup_iterations := by omega
    have hnn : n = (n - 1) + 1 := by omega
    obtain ⟨hl1, hl2, hl3⟩ := pipelined_later_part warmup_iterations A AD R RD (w0 + 1)
      (n - 1 - w0 - 1) (by omega)
    obtain ⟨hq1, hq2, hq3⟩ := tagged_counts _
      (fun op hop => ⟨_, pipelined_transfers_tagged A AD R RD (n - 1) op hop⟩)
    have hend : pipelined_iteration_ops warmup_iterations A AD R RD (n - 1) ((n - 1) % 2) =
        Op.begin_execute R A :: (pipelined_transfers A AD R RD (n - 1) ++ [Op.future_get]) := by
      rw [pipelined_iteration_ops_shape, if_neg hlast]
      rfl
    refine ⟨(List.range w0).flatMap (fun j =>
        pipelined_iteration_ops warmup_iterations A AD R RD j (j % 2)),
      pipelined_transfers A AD R RD w0 ++ [Op.future_get] ++
        (List.range (n - 1 - w0 - 1)).flatMap (fun j =>
          pipelined_iteration_ops warmup_iterations A AD R RD (w0 + 1 + j)
            ((w0 + 1 + j) % 2)) ++
        Op.begin_execute R A :: pipelined_transfers A AD R RD (n - 1),
      ?_, hpre, ?_, ?_, ?_, ?_, ?_, hdrain1, hdrain2⟩
    · rw [hnn, List.range_succ, List.flatMap_append,
        flatMap_range_split _ (n - 1) w0 (by omega)]
      simp [hstart, hend, List.append_assoc]
    · rw [hwarm1, hw2]
    · rw [hwarm2, hw2]
    · intro op hop
      simp only [List.mem_append, List.mem_cons, List.mem_singleton, List.not_mem_nil,
        or_false] at hop
      rcases hop with ((hop | rfl) | hop) | rfl | hop
      · exact htr1 op hop
      · rfl
      · exact hl3 op hop
      · rfl
      · exact hq1 op hop
    · simp only [List.countP_append, List.countP_cons, List.countP_nil, htr2, hl1, hq2]
      simp [Op.is_begin_execute]
      omega
    · simp only [List.countP_append, List.countP_cons, List.countP_nil, htr3, hl2, hq3]
      simp [Op.is_future_get]
      omega

/-- Witness of `pipelined_timed_window`: the one-parameter graph, two measured iterations
after one warm-up iteration. -/
theorem pipelined_timed_window_witness :
    0 < 2 ∧ (0 : Int) ≤ 1 ∧ ((2 : Nat) : Int) + 1 < 2 ^ 64 ∧
    (run_benchmark_double_buffered (identity_graph false) "CPU" 2 false 1 true
      (Engine.const 0)).error = none ∧
    ∃ warm timed : List Op,
      (run_benchmark_double_buffered (identity_graph false) "CPU" 2 false 1 true
        (Engine.const 0)).trace =
          (compile_ops "CPU" false ++ [Op.set_denormals_flush_to_zero] ++
            (make_buffer_sets (identity_graph false) (Engine.const 0)).ops ++
            begin_write_all
              ((make_buffer_sets (identity_graph false) (Engine.const 0)).args_set.getD 0 [])
              ((make_buffer_sets (identity_graph false) (Engine.const 0)).args_data_set.getD
                0 []) 0 ++ warm) ++
          Op.t1_start ::
            Op.begin_execute
              ((make_buffer_sets (identity_graph false) (Engine.const 0)).results_set.getD 0 [])
              ((make_buffer_sets (identity_graph false) (Engine.const 0)).args_set.getD 0 []) ::
              (timed ++ Op.future_get ::
                (begin_read_all
                    ((make_buffer_sets (identity_graph false)
                      (Engine.const 0)).results_set.getD 0 [])
                    ((make_buffer_sets (identity_graph false)
                      (Engine.const 0)).results_data_set.getD 0 [])
                    ((loop_bound 2 1 + 1) % 2) ++
                  [Op.t1_stop, Op.print_ms_per_iteration 2, Op.get_performance_data])) ∧
      (∀ op ∈ compile_ops "CPU" false ++ [Op.set_denormals_flush_to_zero] ++
          (make_buffer_sets (identity_graph false) (Engine.const 0)).ops ++
          begin_write_all
            ((make_buffer_sets (identity_graph false) (Engine.const 0)).args_set.getD 0 [])
            ((make_buffer_sets (identity_graph false) (Engine.const 0)).args_data_set.getD
              0 []) 0 ++ warm,
        op.is_t1 = false) ∧
      warm.countP Op.is_begin_execute = (1 : Int).toNat ∧
      warm.countP Op.is_future_get = (1 : Int).toNat ∧
      (∀ op ∈ timed, op.is_t1 = false) ∧
      timed.countP Op.is_begin_execute = 2 - 1 ∧
      timed.countP Op.is_future_get = 2 - 1 ∧
      (∀ op ∈ begin_read_all
          ((make_buffer_sets (identity_graph false) (Engine.const 0)).results_set.getD 0 [])
          ((make_buffer_sets (identity_graph false) (Engine.const 0)).results_data_set.getD
            0 [])
          ((loop_bound 2 1 + 1) % 2), op.is_begin_read = true) ∧
      (begin_read_all
        ((make_buffer_sets (identity_graph false) (Engine.const 0)).results_set.getD 0 [])
        ((make_buffer_sets (identity_graph false) (Engine.const 0)).results_data_set.getD 0 [])
        ((loop_bound 2 1 + 1) % 2)).length = (identity_graph false).results.length :=
  ⟨by decide, by decide, by decide, by decide,
    pipelined_timed_window (identity_graph false) "CPU" 2 false 1 true (Engine.const 0)
      (by decide) (by decide) (by decide) (by decide)⟩

theorem flatMap_range_peel {α : Type} (F : Nat → List α) (m : Nat) :
    (List.range (m + 1)).flatMap F = F 0 ++ (List.range m).flatMap (fun j => F (j + 1)) := by
  rw [List.range_succ_eq_map]
  simp [List.flatMap_map]

theorem pipelined_write_before (w : Int) (args : List Tensor) (args_data : List HostTensor)
    (results : List Tensor) (results_data : List HostTensor) (setup : List Op)
    (hsetup : setup.countP Op.is_begin_execute = 0) (i : Nat) :
    ∃ pre sep : List Op,
      setup ++ begin_write_all args args_data 0 ++
          (List.range i).flatMap (fun j =>
            pipelined_iteration_ops w args args_data results results_data j (j % 2)) =
        pre ++ begin_write_all args args_data (i % 2) ++ sep ∧
      pre.countP Op.is_begin_execute = i ∧
      ∀ op ∈ sep, op = Op.future_get := by
  cases i with
  | zero => exact ⟨setup, [], by simp, hsetup, by simp⟩
  | succ k =>
    have h0 : (begin_write_all args args_data 0).countP Op.is_begin_execute = 0 :=
      List.countP_eq_zero.2 (fun op hop => by simp [(begin_write_all_tag _ _ _ op hop).2.2.1])
    have hr : (if 0 < k then begin_read_all results results_data ((k + 1) % 2)
        else []).countP Op.is_begin_execute = 0 := by
      split
      · exact List.countP_eq_zero.2
          (fun op hop => by simp [(begin_read_all_tag _ _ _ op hop).2.2.1])
      · rfl
    have hs : (if k = size_t_of_int w then [Op.t1_start] else []).countP
        Op.is_begin_execute = 0 := by
      split <;> rfl
    refine ⟨setup ++ begin_write_all args args_data 0 ++
        (List.range k).flatMap (fun j =>
          pipelined_iteration_ops w args args_data results results_data j (j % 2)) ++
        (if k = size_t_of_int w then [Op.t1_start] else []) ++
        Op.begin_execute results args ::
          (if 0 < k then begin_read_all results results_data ((k + 1) % 2) else []),
      [Op.future_get], ?_, ?_, by simp⟩
    · rw [List.range_succ, List.flatMap_append]
      simp [pipelined_iteration_ops_shape, pipelined_transfers, List.append_assoc]
    · simp only [List.countP_append, List.countP_cons, hsetup, h0, hs, hr,
        pipelined_prefix_count]
      simp [Op.is_begin_execute]

theorem pipelined_read_after (w : Int) (args : List Tensor) (args_data : List HostTensor)
    (results : List Tensor) (results_data : List HostTensor) (final : List Op)
    (hfinal : ∀ op ∈ final, op.is_begin_execute = false ∧ op.parity_tag = none)
    (i n : Nat) (hi : i < n) :
    (i + 1 = n ∧
      (List.range (n - i - 1)).flatMap (fun j =>
          pipelined_iteration_ops w args args_data results results_data (i + 1 + j)
            ((i + 1 + j) % 2)) ++
        begin_read_all results results_data ((n + 1) % 2) ++ final =
      begin_read_all results results_data (i % 2) ++ final) ∨
    (i + 1 < n ∧ ∃ start post gap post2 : List Op,
      (∀ op ∈ start, op = Op.t1_start) ∧
      (List.range (n - i - 1)).flatMap (fun j =>
          pipelined_iteration_ops w args args_data results results_data (i + 1 + j)
            ((i + 1 + j) % 2)) ++
        begin_read_all results results_data ((n + 1) % 2) ++ final =
      start ++ Op.begin_execute results args ::
        (begin_read_all results results_data (i % 2) ++
          begin_write_all args args_data (i % 2) ++ Op.future_get :: post) ∧
      post = gap ++ post2 ∧
      (∀ op ∈ gap, op.is_begin_execute = false ∧ op.parity_tag ≠ some (i % 2)) ∧
      (post2 = [] ∨ ∃ tl, post2 = Op.begin_execute results args :: tl)) := by
  have hpar : (i + 1 + 1) % 2 = i % 2 := by omega
  rcases Nat.lt_or_ge (i + 1) n with hlt | hge
  · right
    refine ⟨hlt, ?_⟩
    obtain ⟨m, hm⟩ : ∃ m, n - i - 1 = m + 1 := ⟨n - i - 2, by omega⟩
    have hstartop : ∀ k : Nat, ∀ op ∈ (if k = size_t_of_int w then [Op.t1_start] else []),
        op = Op.t1_start := by
      intro k op hop
      split at hop
      · simpa using hop
      · simp at hop
    rw [hm, flatMap_range_peel]
    cases m with
    | zero =>
      have hn : n = i + 2 := by omega
      have htag : (n + 1) % 2 = (i + 1) % 2 := by omega
      refine ⟨if i + 1 = size_t_of_int w then [Op.t1_start] else [],
        begin_read_all results results_data ((n + 1) % 2) ++ final,
        begin_read_all results results_data ((n + 1) % 2) ++ final, [],
        hstartop _, ?_, by simp, ?_, Or.inl rfl⟩
      · simp [pipelined_iteration_ops_shape, pipelined_transfers, hpar, List.append_assoc]
      · intro op hop
        rcases List.mem_append.1 hop with hop | hop
        · have ht := begin_read_all_tag _ _ _ op hop
          refine ⟨ht.2.2.1, ?_⟩
          rw [ht.1, htag]
          intro h
          injection h with h
          omega
        · refine ⟨(hfinal op hop).1, ?_⟩
          rw [(hfinal op hop).2]
          simp
    | succ m2 =>
      refine ⟨if i + 1 = size_t_of_int w then [Op.t1_start] else [],
        (List.range (m2 + 1)).flatMap (fun j =>
            pipelined_iteration_ops w args args_data results results_data (i + 1 + (j + 1))
              ((i + 1 + (j + 1)) % 2)) ++
          begin_read_all results results_data ((n + 1) % 2) ++ final,
        if i + 1 + 1 = size_t_of_int w then [Op.t1_start] else [],
        Op.begin_execute results args ::
          (pipelined_transfers args args_data results results_data (i + 1 + 1) ++
            [Op.future_get] ++
          (List.range m2).flatMap (fun j =>
            pipelined_iteration_ops w args args_data results results_data
              (i + 1 + (j + 1 + 1)) ((i + 1 + (j + 1 + 1)) % 2)) ++
          begin_read_all results results_data ((n + 1) % 2) ++ final),
        hstartop _, ?_, ?_, ?_, Or.inr ⟨_, rfl⟩⟩
      · simp [pipelined_iteration_ops_shape, pipelined_transfers, hpar, List.append_assoc]
      · rw [flatMap_range_peel]
        simp [pipelined_iteration_ops_shape, List.append_assoc]
      · intro op hop
        have := hstartop _ op hop
        subst this
        exact ⟨rfl, by simp [Op.parity_tag]⟩
  · left
    have hn : n = i + 1 := by omega
    have htag : (n + 1) % 2 = i % 2 := by omega
    refine ⟨hn.symm, ?_⟩
    have hz : n - i - 1 = 0 := by omega
    rw [hz, htag]
    simp

theorem begin_read_all_targets (results : List Tensor) (results_data : List HostTensor)
    (b : Nat) (hlen : results.length = results_data.length) :
    (begin_read_all results results_data b).map Op.transfer_tensor = results.map some := by
  induction results generalizing results_data with
  | nil => simp [begin_read_all]
  | cons a rest ih =>
    cases results_data with
    | nil => simp at hlen
    | cons d ds =>
      simp only [List.length_cons, Nat.add_right_cancel_iff] at hlen
      simp [begin_read_all, Op.transfer_tensor, ih ds hlen]

/-- C12: in a run of `run_benchmark_double_buffered` that reaches the loop, with `n` the
loop bound `iterations + warmup_iterations` as computed in `size_t`, for every
iteration `i < n` the trace reads, for the parity tag `i % 2`: a `begin_write` batch
tagged `i % 2` (the priming writes for `i = 0`, those of iteration `i - 1` otherwise);
then, after at most a wait and a `t1_start`, the `begin_execute` of iteration `i`
(preceded by exactly `i` others); then only transfers tagged `(i + 1) % 2` until the
wait on its future; and after that wait, for `i = n - 1` the drain, one `begin_read`
batch tagged `i % 2` followed by `t1_stop`, and for `i < n - 1` the `begin_execute` of
iteration `i + 1`, then the one `begin_read` batch tagged `i % 2`, then the next
`begin_write` batch tagged `i % 2`, then the wait, with no further operation tagged
`i % 2` before the next `begin_execute`, if any.  A `begin_read` batch with tag `b` is
one `begin_read` per result, each tagged `b`, on the result tensors in order; a
`begin_write` batch with tag `b` is one `begin_write` per parameter, each tagged `b`,
on the argument tensors in order. -/
theorem pipelined_parity_order (f : Function) (backend_name : String) (iterations : Nat)
    (timing_detail : Bool) (warmup_iterations : Int) (copy_data : Bool) (e : Engine)
    (i : Nat)
    (herr : (run_benchmark_double_buffered f backend_name iterations timing_detail
      warmup_iterations copy_data e).error = none)
    (hi : i < loop_bound iterations warmup_iterations) :
    ∃ pre gap reads rest : List Op,
      (run_benchmark_double_buffered f backend_name iterations timing_detail
        warmup_iterations copy_data e).trace =
          pre ++
            begin_write_all ((make_buffer_sets f e).args_set.getD 0 [])
              ((make_buffer_sets f e).args_data_set.getD 0 []) (i % 2) ++
            gap ++
            Op.begin_execute ((make_buffer_sets f e).results_set.getD 0 [])
              ((make_buffer_sets f e).args_set.getD 0 []) ::
              (reads ++
                begin_write_all ((make_buffer_sets f e).args_set.getD 0 [])
                  ((make_buffer_sets f e).args_data_set.getD 0 []) ((i + 1) % 2) ++
                Op.future_get :: rest) ∧
      pre.countP Op.is_begin_execute = i ∧
      (∀ op ∈ gap, op = Op.future_get ∨ op = Op.t1_start) ∧
      (∀ op ∈ reads, op.is_begin_read = true ∧ op.parity_tag = some ((i + 1) % 2)) ∧
      (∀ b : Nat,
        (∀ op ∈ begin_read_all ((make_buffer_sets f e).results_set.getD 0 [])
            ((make_buffer_sets f e).results_data_set.getD 0 []) b,
          op.is_begin_read = true ∧ op.parity_tag = some b) ∧
        (begin_read_all ((make_buffer_sets f e).results_set.getD 0 [])
          ((make_buffer_sets f e).results_data_set.getD 0 []) b).length = f.results.length ∧
        (begin_read_all ((make_buffer_sets f e).results_set.getD 0 [])
          ((make_buffer_sets f e).results_data_set.getD 0 []) b).map Op.transfer_tensor =
          ((make_buffer_sets f e).results_set.getD 0 []).map some) ∧
      (∀ b : Nat,
        (∀ op ∈ begin_write_all ((make_buffer_sets f e).args_set.getD 0 [])
            ((make_buffer_sets f e).args_data_set.getD 0 []) b,
          op.is_begin_write = true ∧ op.parity_tag = some b) ∧
        (begin_write_all ((make_buffer_sets f e).args_set.getD 0 [])
          ((make_buffer_sets f e).args_data_set.getD 0 []) b).length = f.parameters.length ∧
        (begin_write_all ((make_buffer_sets f e).args_set.getD 0 [])
          ((make_buffer_sets f e).args_data_set.getD 0 []) b).map Op.transfer_tensor =
          ((make_buffer_sets f e).args_set.getD 0 []).map some) ∧
      ((i + 1 = loop_bound iterations warmup_iterations ∧
          rest = begin_read_all ((make_buffer_sets f e).results_set.getD 0 [])
              ((make_buffer_sets f e).results_data_set.getD 0 []) (i % 2) ++
            [Op.t1_stop, Op.print_ms_per_iteration iterations, Op.get_performance_data]) ∨
        (i + 1 < loop_bound iterations warmup_iterations ∧
          ∃ start post gap2 post2 : List Op,
            (∀ op ∈ start, op = Op.t1_start) ∧
            rest = start ++
              Op.begin_execute ((make_buffer_sets f e).results_set.getD 0 [])
                ((make_buffer_sets f e).args_set.getD 0 []) ::
                (begin_read_all ((make_buffer_sets f e).results_set.getD 0 [])
                    ((make_buffer_sets f e).results_data_set.getD 0 []) (i % 2) ++
                  begin_write_all ((make_buffer_sets f e).args_set.getD 0 [])
                    ((make_buffer_sets f e).args_data_set.getD 0 []) (i % 2) ++
                  Op.future_get :: post) ∧
            post = gap2 ++ post2 ∧
            (∀ op ∈ gap2, op.is_begin_execute = false ∧ op.parity_tag ≠ some (i % 2)) ∧
            (post2 = [] ∨ ∃ tl, post2 =
              Op.begin_execute ((make_buffer_sets f e).results_set.getD 0 [])
                ((make_buffer_sets f e).args_set.getD 0 []) :: tl))) := by
  rw [pipelined_error] at herr
  rw [pipelined_trace_at f backend_name iterations timing_detail warmup_iterations
    copy_data e herr i hi]
  have hsetup : (compile_ops backend_name timing_detail ++ [Op.set_denormals_flush_to_zero] ++
      (make_buffer_sets f e).ops).countP Op.is_begin_execute = 0 := by
    have hc : (compile_ops backend_name timing_detail).countP Op.is_begin_execute = 0 := rfl
    have hd : [Op.set_denormals_flush_to_zero].countP Op.is_begin_execute = 0 := rfl
    rw [List.countP_append, List.countP_append, hc, hd,
      alloc_count_begin_execute _ (make_buffer_sets_alloc f e)]
  have hla := make_buffer_sets_length f e herr
  have hlr := make_buffer_sets_results_length f e herr
  generalize (make_buffer_sets f e).args_set.getD 0 [] = A at hla ⊢
  generalize (make_buffer_sets f e).args_data_set.getD 0 [] = AD at hla ⊢
  generalize (make_buffer_sets f e).results_set.getD 0 [] = R at hlr ⊢
  generalize (make_buffer_sets f e).results_data_set.getD 0 [] = RD at hlr ⊢
  have hreads : ∀ b : Nat,
      (∀ op ∈ begin_read_all R RD b, op.is_begin_read = true ∧ op.parity_tag = some b) ∧
      (begin_read_all R RD b).length = f.results.length ∧
      (begin_read_all R RD b).map Op.transfer_tensor = R.map some := by
    intro b
    refine ⟨fun op hop => ⟨begin_read_all_kind _ _ _ op hop, (begin_read_all_tag _ _ _ op hop).1⟩,
      ?_, begin_read_all_targets R RD b (by rw [hlr.1, hlr.2])⟩
    rw [begin_read_all_length R RD b (by rw [hlr.1, hlr.2]), hlr.1]
  have hwrites : ∀ b : Nat,
      (∀ op ∈ begin_write_all A AD b, op.is_begin_write = true ∧ op.parity_tag = some b) ∧
      (begin_write_all A AD b).length = f.parameters.length ∧
      (begin_write_all A AD b).map Op.transfer_tensor = A.map some := by
    intro b
    have ht := begin_write_all_targets A AD b (by rw [hla.1, hla.2])
    refine ⟨fun op hop => ⟨begin_write_all_kind _ _ _ op hop,
      (begin_write_all_tag _ _ _ op hop).1⟩, ?_, ht⟩
    have := congrArg List.length ht
    simpa [hla.1] using this
  generalize compile_ops backend_name timing_detail ++ [Op.set_denormals_flush_to_zero] ++
    (make_buffer_sets f e).ops = S at hsetup ⊢
  generalize loop_bound iterations warmup_iterations = n at hi ⊢
  obtain ⟨pre, sep, hpre, hcount, hsep⟩ := pipelined_write_before warmup_iterations A AD R RD
    S hsetup i
  have hfinal : ∀ op ∈ [Op.t1_stop, Op.print_ms_per_iteration iterations,
      Op.get_performance_data], op.is_begin_execute = false ∧ op.parity_tag = none := by
    intro op hop
    simp only [List.mem_cons, List.mem_singleton, List.not_mem_nil, or_false] at hop
    rcases hop with rfl | rfl | rfl <;> exact ⟨rfl, rfl⟩
  have hafter := pipelined_read_after warmup_iterations A AD R RD _ hfinal i n hi
  refine ⟨pre, sep ++ (if i = size_t_of_int warmup_iterations then [Op.t1_start] else []),
    (if 0 < i then begin_read_all R RD ((i + 1) % 2) else []),
    (List.range (n - i - 1)).flatMap (fun j =>
        pipelined_iteration_ops warmup_iterations A AD R RD (i + 1 + j) ((i + 1 + j) % 2)) ++
      begin_read_all R RD ((n + 1) % 2) ++
      [Op.t1_stop, Op.print_ms_per_iteration iterations, Op.get_performance_data],
    ?_, hcount, ?_, ?_, hreads, hwrites, hafter⟩
  · rw [hpre]
    simp [pipelined_iteration_ops_shape, pipelined_transfers, List.append_assoc]
  · intro op hop
    rcases List.mem_append.1 hop with hop | hop
    · exact Or.inl (hsep op hop)
    · split at hop
      · exact Or.inr (by simpa using hop)
      · simp at hop
  · intro op hop
    split at hop
    · exact ⟨begin_read_all_kind _ _ _ op hop, (begin_read_all_tag _ _ _ op hop).1⟩
    · simp at hop

/-- Witness of `pipelined_parity_order`: the one-parameter graph, two measured iterations
after one warm-up iteration, iteration 1 of 3. -/
theorem pipelined_parity_order_witness :
    (run_benchmark_double_buffered (identity_graph false) "CPU" 2 false 1 true
      (Engine.const 0)).error = none ∧
    1 < loop_bound 2 1 ∧
    begin_read_all ((make_buffer_sets (identity_graph false) (Engine.const 0)).results_set.getD 0 [])
      ((make_buffer_sets (identity_graph false) (Engine.const 0)).results_data_set.getD 0 []) (1 % 2) = [Op.begin_read (Tensor.result 0 0) 8 1] ∧
    ∃ pre gap reads rest : List Op,
      (run_benchmark_double_buffered (identity_graph false) "CPU" 2 false 1 true
        (Engine.const 0)).trace =
          pre ++
            begin_write_all ((make_buffer_sets (identity_graph false) (Engine.const 0)).args_set.getD 0 [])
              ((make_buffer_sets (identity_graph false) (Engine.const 0)).args_data_set.getD 0 []) (1 % 2) ++
            gap ++
            Op.begin_execute ((make_buffer_sets (identity_graph false) (Engine.const 0)).results_set.getD 0 [])
              ((make_buffer_sets (identity_graph false) (Engine.const 0)).args_set.getD 0 []) ::
              (reads ++
                begin_write_all ((make_buffer_sets (identity_graph false) (Engine.const 0)).args_set.getD 0 [])
                  ((make_buffer_sets (identity_graph false) (Engine.const 0)).args_data_set.getD 0 []) ((1 + 1) % 2) ++
                Op.future_get :: rest) ∧
      pre.countP Op.is_begin_execute = 1 ∧
      (∀ op ∈ gap, op = Op.future_get ∨ op = Op.t1_start) ∧
      (∀ op ∈ reads, op.is_begin_read = true ∧ op.parity_tag = some ((1 + 1) % 2)) ∧
      (∀ b : Nat,
        (∀ op ∈ begin_read_all ((make_buffer_sets (identity_graph false) (Engine.const 0)).results_set.getD 0 [])
            ((make_buffer_sets (identity_graph false) (Engine.const 0)).results_data_set.getD 0 []) b,
          op.is_begin_read = true ∧ op.parity_tag = some b) ∧
        (begin_read_all ((make_buffer_sets (identity_graph false) (Engine.const 0)).results_set.getD 0 [])
          ((make_buffer_sets (identity_graph false) (Engine.const 0)).results_data_set.getD 0 []) b).length = (identity_graph false).results.length ∧
        (begin_read_all ((make_buffer_sets (identity_graph false) (Engine.const 0)).results_set.getD 0 [])
          ((make_buffer_sets (identity_graph false) (Engine.const 0)).results_data_set.getD 0 []) b).map Op.transfer_tensor =
          ((make_buffer_sets (identity_graph false) (Engine.const 0)).results_set.getD 0 []).map some) ∧
      (∀ b : Nat,
        (∀ op ∈ begin_write_all ((make_buffer_sets (identity_graph false) (Engine.const 0)).args_set.getD 0 [])
            ((make_buffer_sets (identity_graph false) (Engine.const 0)).args_data_set.getD 0 []) b,
          op.is_begin_write = true ∧ op.parity_tag = some b) ∧
        (begin_write_all ((make_buffer_sets (identity_graph false) (Engine.const 0)).args_set.getD 0 [])
          ((make_buffer_sets (identity_graph false) (Engine.const 0)).args_data_set.getD 0 []) b).length = (identity_graph false).parameters.length ∧
        (begin_write_all ((make_buffer_sets (identity_graph false) (Engine.const 0)).args_set.getD 0 [])
          ((make_buffer_sets (identity_graph false) (Engine.const 0)).args_data_set.getD 0 []) b).map Op.transfer_tensor =
          ((make_buffer_sets (identity_graph false) (Engine.const 0)).args_set.getD 0 []).map some) ∧
      ((1 + 1 = loop_bound 2 1 ∧
          rest = begin_read_all ((make_buffer_sets (identity_graph false) (Engine.const 0)).results_set.getD 0 [])
              ((make_buffer_sets (identity_graph false) (Engine.const 0)).results_data_set.getD 0 []) (1 % 2) ++
            [Op.t1_stop, Op.print_ms_per_iteration 2, Op.get_performance_data]) ∨
        (1 + 1 < loop_bound 2 1 ∧
          ∃ start post gap2 post2 : List Op,
            (∀ op ∈ start, op = Op.t1_start) ∧
            rest = start ++
              Op.begin_execute ((make_buffer_sets (identity_graph false) (Engine.const 0)).results_set.getD 0 [])
                ((make_buffer_sets (identity_graph false) (Engine.const 0)).args_set.getD 0 []) ::
                (begin_read_all ((make_buffer_sets (identity_graph false) (Engine.const 0)).results_set.getD 0 [])
                    ((make_buffer_sets (identity_graph false) (Engine.const 0)).results_data_set.getD 0 []) (1 % 2) ++
                  begin_write_all ((make_buffer_sets (identity_graph false) (Engine.const 0)).args_set.getD 0 [])
                    ((make_buffer_sets (identity_graph false) (Engine.const 0)).args_data_set.getD 0 []) (1 % 2) ++
                  Op.future_get :: post) ∧
            post = gap2 ++ post2 ∧
            (∀ op ∈ gap2, op.is_begin_execute = false ∧ op.parity_tag ≠ some (1 % 2)) ∧
            (post2 = [] ∨ ∃ tl, post2 =
              Op.begin_execute ((make_buffer_sets (identity_graph false) (Engine.const 0)).results_set.getD 0 [])
                ((make_buffer_sets (identity_graph false) (Engine.const 0)).args_set.getD 0 []) :: tl))) :=
  ⟨by decide, by decide, by decide,
    pipelined_parity_order (identity_graph false) "CPU" 2 false 1 true (Engine.const 0) 1
      (by decide) (by decide)⟩

/-! ## The single-buffer runner: timing -/

end NBench
